import Mathlib

/-!
Verification development for the ForkLion rendering and evolution engines
(`src/visualizer.py`, `src/evolution.py`).

The Python sources are shallowly embedded: pure functions become Lean
functions, Python `int` becomes `Int` (for positive divisors Python's `//`
and `%` agree with Lean's `Int` `/` and `%`, both flooring), exceptions
become `Option` (`none` = the call raises), and the language-model provider
and the random-genetics collaborator become explicit function parameters.

The data model (`LionDNA`, `Trait`, `TraitCategory`, `Rarity`) lives in
`src/genetics.py`, which is not part of the sources under verification; it
is modelled from the specification's data-model section (six fixed trait
categories, four rarity tiers, value and rarity independently settable,
generation / parent / mutation count / birth timestamp / content hash).
-/

set_option maxRecDepth 40000

namespace ForkLion

/-- Join a list of strings with a newline between consecutive elements:
the embedding of Python's `"\n".join(parts)` (and `joinSep` of a general
separator embeds `sep.join(parts)`). -/
def joinSep (sep : String) : List String → String
  | [] => ""
  | [a] => a
  | a :: b :: rest => a ++ sep ++ joinSep sep (b :: rest)

/-- Python `"\n".join`. -/
def joinNL (parts : List String) : String := joinSep "\n" parts

/-- The opening-brace character, written by code so that no brace appears
inside a string literal of this file. -/
def lbrace : Char := Char.ofNat 123

/-- The closing-brace character. -/
def rbrace : Char := Char.ofNat 125

/-- The opening brace as a one-character string. -/
def lbraceS : String := String.singleton lbrace

/-- The closing brace as a one-character string. -/
def rbraceS : String := String.singleton rbrace

/-- Characters Python's `str.strip()` removes (the ASCII whitespace set;
the inputs of interest contain no other Unicode whitespace). -/
def pySpace (c : Char) : Bool :=
  c = ' ' || c = '\t' || c = '\n' || c = '\r' || c = Char.ofNat 11 || c = Char.ofNat 12

/-- Python `str.strip()`. -/
def pyStrip (s : String) : String :=
  String.mk (((s.toList.dropWhile pySpace).reverse.dropWhile pySpace).reverse)

/-- One step of Python `str.replace`: non-overlapping, left to right.
Fuel-based structural recursion so the kernel can evaluate it. -/
def replaceAllAux (pat rep : List Char) : Nat → List Char → List Char
  | 0, s => s
  | _ + 1, [] => []
  | fuel + 1, c :: rest =>
    if pat.isPrefixOf (c :: rest) then
      rep ++ replaceAllAux pat rep fuel ((c :: rest).drop pat.length)
    else
      c :: replaceAllAux pat rep fuel rest

/-- Python `s.replace(pat, rep)` (for a non-empty pattern). -/
def pyReplace (s pat rep : String) : String :=
  String.mk (replaceAllAux pat.toList rep.toList s.toList.length s.toList)

section DataModel

/-- Modelled from the spec: `src/genetics.py` is not among the sources
under verification. The fixed six-category set of the data model, in the
declaration order the spec lists (`body_color`, `face_expression`,
`accessory`, `pattern`, `background`, `special`); iteration over the enum
follows this order. -/
inductive TraitCategory where
  | BODY_COLOR
  | FACE_EXPRESSION
  | ACCESSORY
  | PATTERN
  | BACKGROUND
  | SPECIAL
deriving DecidableEq

/-- The `.value` string of each category member. -/
def TraitCategory.pyValue : TraitCategory → String
  | .BODY_COLOR => "body_color"
  | .FACE_EXPRESSION => "face_expression"
  | .ACCESSORY => "accessory"
  | .PATTERN => "pattern"
  | .BACKGROUND => "background"
  | .SPECIAL => "special"

/-- Python `TraitCategory(s)`: the member whose value is `s`, or `none`
for the `ValueError` an unknown name raises. -/
def TraitCategory.fromString? (s : String) : Option TraitCategory :=
  if s = "body_color" then some .BODY_COLOR
  else if s = "face_expression" then some .FACE_EXPRESSION
  else if s = "accessory" then some .ACCESSORY
  else if s = "pattern" then some .PATTERN
  else if s = "background" then some .BACKGROUND
  else if s = "special" then some .SPECIAL
  else none

/-- The members of `TraitCategory` in declaration order (Python
`for category in TraitCategory`). -/
def allCategories : List TraitCategory :=
  [.BODY_COLOR, .FACE_EXPRESSION, .ACCESSORY, .PATTERN, .BACKGROUND, .SPECIAL]

/-- Modelled from the spec: the four ordinal rarity tiers. -/
inductive Rarity where
  | common
  | uncommon
  | rare
  | legendary
deriving DecidableEq

/-- The `.value` string of each rarity tier. -/
def Rarity.pyValue : Rarity → String
  | .common => "common"
  | .uncommon => "uncommon"
  | .rare => "rare"
  | .legendary => "legendary"

/-- Python `Rarity(s)`, `none` for the `ValueError` of an unknown name. -/
def Rarity.fromString? (s : String) : Option Rarity :=
  if s = "common" then some .common
  else if s = "uncommon" then some .uncommon
  else if s = "rare" then some .rare
  else if s = "legendary" then some .legendary
  else none

/-- Modelled from the spec: a Trait is a (category, value, rarity)
triple; the value is a string and is not checked against a vocabulary by
the constructor. -/
structure Trait where
  category : TraitCategory
  value : String
  rarity : Rarity
deriving DecidableEq

/-- Modelled from the spec: the genetic record. The traits mapping is a
(possibly partial) function from category to Trait, embedding the Python
dict (`none` = key absent); `dna_hash` is the content hash, with the empty
string for an absent hash (Python's falsy check `if dna.dna_hash` treats
`None` and `""` alike). -/
structure LionDNA where
  generation : Nat
  parent_id : Option String
  traits : TraitCategory → Option Trait
  mutation_count : Nat
  birth_timestamp : String
  dna_hash : String

/-- All six trait categories are populated. -/
def populatedB (d : LionDNA) : Bool :=
  allCategories.all fun c => (d.traits c).isSome

/-- Modelled from the spec: the content hash is a digest over the trait
values. `src/genetics.py` (which computes it) is not under verification,
so the digest is modelled as a deterministic serialization of the six
trait values; only its functional dependence on the trait values matters
to the claims. -/
def contentHash (tr : TraitCategory → Option Trait) : String :=
  allCategories.foldl
    (fun acc c => acc ++ "|" ++ (match tr c with | some t => t.value | none => "")) ""

end DataModel

section JsonModel

/-- JSON values as Python's `json.loads` returns them: numbers are kept as
scaled decimals (mantissa and a power of ten), with `jnan` / `jinf` for
the non-standard `NaN` / `Infinity` literals Python accepts. -/
inductive Json where
  | jnull
  | jbool (b : Bool)
  | jnum (mant : Int) (exp10 : Int)
  | jnan
  | jinf (neg : Bool)
  | jstr (s : String)
  | jarr (elems : List Json)
  | jobj (members : List (String × Json))

/-- The string payload of a JSON string value. -/
def Json.asString? : Json → Option String
  | .jstr s => some s
  | _ => none

/-- JSON whitespace (the exact set Python's decoder skips). -/
def jWsB (c : Char) : Bool :=
  c = ' ' || c = '\t' || c = '\n' || c = '\r'

/-- Skip JSON whitespace. -/
def dropWs (cs : List Char) : List Char := cs.dropWhile jWsB

/-- Hex digit value. -/
def hexDigit? (c : Char) : Option Nat :=
  if '0' ≤ c ∧ c ≤ '9' then some (c.toNat - 48)
  else if 'a' ≤ c ∧ c ≤ 'f' then some (c.toNat - 87)
  else if 'A' ≤ c ∧ c ≤ 'F' then some (c.toNat - 55)
  else none

/-- Four hex digits as a number. -/
def hex4? (a b c d : Char) : Option Nat := do
  let x ← hexDigit? a
  let y ← hexDigit? b
  let z ← hexDigit? c
  let w ← hexDigit? d
  pure (((x * 16 + y) * 16 + z) * 16 + w)

/-- Single-character JSON escapes. -/
def escChar? (c : Char) : Option Char :=
  if c = '"' then some '"'
  else if c = '\\' then some '\\'
  else if c = '/' then some '/'
  else if c = 'b' then some (Char.ofNat 8)
  else if c = 'f' then some (Char.ofNat 12)
  else if c = 'n' then some '\n'
  else if c = 'r' then some '\r'
  else if c = 't' then some '\t'
  else none

/-- Stand-in for a lone surrogate (Python keeps lone surrogates inside
`str`; Lean's `Char` cannot, so U+FFFD stands in — no claim input
contains one). -/
def loneSurrogate : Char := Char.ofNat 0xFFFD

/-- JSON string literal body, after the opening quote: returns the decoded
string and the input after the closing quote. Strict mode: raw control
characters below U+0020 are rejected, as Python's default decoder does. -/
def parseStrAux : Nat → List Char → String → Option (String × List Char)
  | 0, _, _ => none
  | _ + 1, [], _ => none
  | fuel + 1, c :: rest, acc =>
    if c = '"' then some (acc, rest)
    else if c = '\\' then
      match rest with
      | 'u' :: h1 :: h2 :: h3 :: h4 :: r2 =>
        match hex4? h1 h2 h3 h4 with
        | none => none
        | some n =>
          if 0xD800 ≤ n ∧ n ≤ 0xDBFF then
            match r2 with
            | '\\' :: 'u' :: g1 :: g2 :: g3 :: g4 :: r3 =>
              match hex4? g1 g2 g3 g4 with
              | some m =>
                if 0xDC00 ≤ m ∧ m ≤ 0xDFFF then
                  parseStrAux fuel r3
                    (acc.push (Char.ofNat (0x10000 + (n - 0xD800) * 0x400 + (m - 0xDC00))))
                else parseStrAux fuel r2 (acc.push loneSurrogate)
              | none => none
            | _ => parseStrAux fuel r2 (acc.push loneSurrogate)
          else if 0xDC00 ≤ n ∧ n ≤ 0xDFFF then
            parseStrAux fuel r2 (acc.push loneSurrogate)
          else
            parseStrAux fuel r2 (acc.push (Char.ofNat n))
      | e :: r2 =>
        match escChar? e with
        | some ch => parseStrAux fuel r2 (acc.push ch)
        | none => none
      | [] => none
    else if c.toNat < 0x20 then none
    else parseStrAux fuel rest (acc.push c)

/-- Decimal digits as a natural number. -/
def digitsToNat (l : List Char) : Nat :=
  l.foldl (fun a c => a * 10 + (c.toNat - 48)) 0

/-- A strict JSON number (sign, integer part without redundant leading
zero, optional fraction, optional exponent), as Python's decoder accepts
one; the result is a scaled decimal. -/
def parseNum (cs : List Char) : Option (Json × List Char) :=
  let (neg, cs1) := match cs with
    | '-' :: r => (true, r)
    | _ => (false, cs)
  let ip := cs1.takeWhile Char.isDigit
  let r1 := cs1.dropWhile Char.isDigit
  if ip.isEmpty then none
  else if 1 < ip.length ∧ ip.headD '0' = '0' then none
  else
    let fracRes : Option (List Char × List Char) := match r1 with
      | '.' :: r =>
        let fp := r.takeWhile Char.isDigit
        if fp.isEmpty then none else some (fp, r.dropWhile Char.isDigit)
      | _ => some ([], r1)
    match fracRes with
    | none => none
    | some (fp, r2) =>
      let expRes : Option (Int × List Char) := match r2 with
        | e :: r3 =>
          if e = 'e' ∨ e = 'E' then
            let (eneg, r4) := match r3 with
              | '-' :: r5 => (true, r5)
              | '+' :: r5 => (false, r5)
              | _ => (false, r3)
            let ed := r4.takeWhile Char.isDigit
            if ed.isEmpty then none
            else some ((if eneg then -(Int.ofNat (digitsToNat ed)) else Int.ofNat (digitsToNat ed)),
                       r4.dropWhile Char.isDigit)
          else some (0, r2)
        | [] => some (0, r2)
      match expRes with
      | none => none
      | some (ex, r6) =>
        let mant : Int := Int.ofNat (digitsToNat (ip ++ fp))
        some (Json.jnum (if neg then -mant else mant) (ex - Int.ofNat fp.length), r6)

/-- Insert-or-replace for a JSON object under construction: Python dicts
keep the first position of a key and let a later duplicate overwrite the
value. -/
def objInsert (acc : List (String × Json)) (k : String) (v : Json) : List (String × Json) :=
  if acc.any (fun kv => kv.1 = k) then
    acc.map (fun kv => if kv.1 = k then (k, v) else kv)
  else acc ++ [(k, v)]

/-- Decoder state: a value, or the tail of an array / object with the
members already read. -/
inductive PState where
  | value
  | arrSt (acc : List Json) (first : Bool)
  | objSt (acc : List (String × Json)) (first : Bool)

/-- The recursive JSON decoder (recursion on fuel so the kernel can run
it; every frame consumes input, so the fuel chosen in `json_loads` never
runs out on any input). -/
def parseCore : Nat → PState → List Char → Option (Json × List Char)
  | 0, _, _ => none
  | fuel + 1, .value, cs0 =>
    let cs := dropWs cs0
    match cs with
    | [] => none
    | c :: rest =>
      if c = lbrace then parseCore fuel (.objSt [] true) rest
      else if c = '[' then parseCore fuel (.arrSt [] true) rest
      else if c = '"' then
        match parseStrAux (rest.length + 1) rest "" with
        | some (s, r) => some (Json.jstr s, r)
        | none => none
      else if ['t', 'r', 'u', 'e'].isPrefixOf cs then some (Json.jbool true, cs.drop 4)
      else if ['f', 'a', 'l', 's', 'e'].isPrefixOf cs then some (Json.jbool false, cs.drop 5)
      else if ['n', 'u', 'l', 'l'].isPrefixOf cs then some (Json.jnull, cs.drop 4)
      else if ['N', 'a', 'N'].isPrefixOf cs then some (Json.jnan, cs.drop 3)
      else if ['I', 'n', 'f', 'i', 'n', 'i', 't', 'y'].isPrefixOf cs then
        some (Json.jinf false, cs.drop 8)
      else if ['-', 'I', 'n', 'f', 'i', 'n', 'i', 't', 'y'].isPrefixOf cs then
        some (Json.jinf true, cs.drop 9)
      else parseNum cs
  | fuel + 1, .arrSt acc first, cs0 =>
    let cs := dropWs cs0
    match cs, first with
    | ']' :: rest, true => some (Json.jarr [], rest)
    | _, _ =>
      match parseCore fuel .value cs with
      | none => none
      | some (j, r) =>
        match dropWs r with
        | ',' :: r2 => parseCore fuel (.arrSt (j :: acc) false) r2
        | ']' :: r2 => some (Json.jarr (j :: acc).reverse, r2)
        | _ => none
  | fuel + 1, .objSt acc first, cs0 =>
    let cs := dropWs cs0
    if cs ≠ [] ∧ cs.headD ' ' = rbrace ∧ first then
      some (Json.jobj [], cs.tail)
    else
      match cs with
      | '"' :: rest =>
        match parseStrAux (rest.length + 1) rest "" with
        | none => none
        | some (k, r) =>
          match dropWs r with
          | ':' :: r2 =>
            match parseCore fuel .value r2 with
            | none => none
            | some (v, r3) =>
              match dropWs r3 with
              | ',' :: r4 => parseCore fuel (.objSt (objInsert acc k v) false) r4
              | c :: r4 => if c = rbrace then some (Json.jobj (objInsert acc k v), r4) else none
              | [] => none
          | _ => none
      | _ => none

/-- Python `json.loads`: decode one value and require only whitespace
after it. -/
def json_loads (s : String) : Option Json :=
  let cs := s.toList
  match parseCore (2 * cs.length + 8) .value cs with
  | some (j, rest) => if (dropWs rest).isEmpty then some j else none
  | none => none

end JsonModel

section EvolutionAgent
/-!
`EvolutionAgent` (`src/evolution.py`). The provider object is embedded as
its one consumed capability, `generate_response : String → Nat → Option
String` (`none` = the call raises); the random-genetics collaborator
(`GeneticsEngine.evolve`, external per the spec) as a function parameter
`LionDNA → ℚ → LionDNA`; `print` calls are effect-free and dropped.
-/

/-- The default change-set `_parse_ai_response` returns on any failure. -/
def defaultDecision : Json :=
  Json.jobj [("changes", Json.jarr []), ("evolution_story", Json.jstr "No changes today.")]

/-- The fence-stripping and brace-span extraction of `_parse_ai_response`:
strip ```json and ``` markers, strip whitespace, then slice from the first
opening brace to one past the last closing brace (`str.find` / `str.rfind`;
`rfind` misses ⇒ Python computes `end = -1 + 1 = 0`, so the slice is
empty — the source's `end != -1` test can never fail and is dropped).
`none` embeds the `ValueError` raised when no opening brace exists. -/
def extract_payload (s : String) : Option String :=
  let clean := pyStrip (pyReplace (pyReplace s "```json" "") "```" "")
  let cs := clean.toList
  match cs.findIdx? (fun c => c = lbrace) with
  | none => none
  | some start =>
    let stop : Nat := match (cs.reverse.findIdx? (fun c => c = rbrace)) with
      | some j => cs.length - 1 - j + 1
      | none => 0
    some (String.mk ((cs.drop start).take (stop - start)))

/-- `_parse_ai_response`: decode the extracted payload; any failure
(no braces, empty span, decode error) yields the default change-set. -/
def parse_ai_response (s : String) : Json :=
  match extract_payload s with
  | none => defaultDecision
  | some payload =>
    match json_loads payload with
    | some j => j
    | none => defaultDecision

/-- Resolution of one change of a change-set, as the `try` body of
`_apply_evolution` performs it: `change["category"]` (a `KeyError` or
`TypeError` if `change` is not a dict with the key), `TraitCategory(...)`
(a `ValueError` unless a known name), `change["new_value"]` (the Trait
constructor requires a string), `Rarity(change["new_rarity"])`. Any
failure is the exception the per-change handler swallows. -/
def resolve_change (c : Json) : Option (TraitCategory × String × Rarity) :=
  match c with
  | .jobj kvs => do
    let catJ ← kvs.lookup "category"
    let catS ← catJ.asString?
    let cat ← TraitCategory.fromString? catS
    let valJ ← kvs.lookup "new_value"
    let v ← valJ.asString?
    let rarJ ← kvs.lookup "new_rarity"
    let rarS ← rarJ.asString?
    let rar ← Rarity.fromString? rarS
    pure (cat, v, rar)
  | _ => none

/-- Pointwise update of the copied traits dict. -/
def update_traits (tr : TraitCategory → Option Trait) (cat : TraitCategory) (t : Trait) :
    TraitCategory → Option Trait :=
  fun c => if c = cat then some t else tr c

/-- One iteration of the `for change in decision.get("changes", [])` loop:
a change that resolves replaces that category's Trait and bumps the local
counter; a change that does not is skipped. -/
def apply_step (acc : (TraitCategory → Option Trait) × Nat) (c : Json) :
    (TraitCategory → Option Trait) × Nat :=
  match resolve_change c with
  | some (cat, v, r) => (update_traits acc.1 cat ⟨cat, v, r⟩, acc.2 + 1)
  | none => acc

/-- Python iteration over the value of `"changes"`: lists yield elements,
strings their characters, dicts their keys; anything else raises a
`TypeError` (which `_apply_evolution` does not catch). -/
def py_iter : Json → Option (List Json)
  | .jarr l => some l
  | .jstr s => some (s.toList.map (fun ch => Json.jstr (String.singleton ch)))
  | .jobj kvs => some (kvs.map (fun kv => Json.jstr kv.1))
  | _ => none

/-- The iterable list of changes of a decision object. -/
def changes_of (kvs : List (String × Json)) : Option (List Json) :=
  py_iter ((kvs.lookup "changes").getD (Json.jarr []))

/-- `_apply_evolution`: copy the traits, fold the changes, and build the
evolved record with mutation count = prior + successfully-applied count.
`none` embeds the uncaught exceptions: `decision.get` on a non-dict, or
iterating a non-iterable `"changes"` value. The constructed record's
content hash follows the spec-modelled `LionDNA` constructor (a digest
over the new trait values). -/
def apply_evolution (dna : LionDNA) (decision : Json) : Option LionDNA :=
  match decision with
  | .jobj kvs =>
    match changes_of kvs with
    | none => none
    | some changes =>
      let res := changes.foldl apply_step (dna.traits, 0)
      some { generation := dna.generation
             parent_id := dna.parent_id
             traits := res.1
             mutation_count := dna.mutation_count + res.2
             birth_timestamp := dna.birth_timestamp
             dna_hash := contentHash res.1 }
  | _ => none

/-- The changes of a decision that resolve, in order: the ones the loop
of `_apply_evolution` applies (empty for a non-dict decision, which would
raise before applying anything). -/
def applied_changes (decision : Json) : List (TraitCategory × String × Rarity) :=
  match decision with
  | .jobj kvs => ((changes_of kvs).getD []).filterMap resolve_change
  | _ => []

/-- `json.dumps(traits, indent=2)` for the two-level traits dict the
prompt serializes (values here are plain identifier-like strings, so no
JSON string escaping arises). -/
def dumpTraits (l : List (String × String × String)) : String :=
  if l.isEmpty then lbraceS ++ rbraceS
  else
    lbraceS ++ "\n" ++
      joinSep ",\n" (l.map (fun e =>
        "  \"" ++ e.1 ++ "\": " ++ lbraceS ++ "\n    \"value\": \"" ++ e.2.1 ++
          "\",\n    \"rarity\": \"" ++ e.2.2 ++ "\"\n  " ++ rbraceS)) ++
      "\n" ++ rbraceS

/-- `_create_evolution_prompt`: the instruction text sent to the model
(the doubled braces of the Python f-string are literal braces). -/
def create_evolution_prompt (traits : List (String × String × String)) (days : Int)
    (generation : Nat) : String :=
  "You are an AI evolution agent for ForkLion - a digital pet that lives on GitHub.\n\n" ++
  "Your task is to evolve this lion's appearance in a subtle, aesthetically pleasing way.\n\n" ++
  "Current Lion Traits:\n" ++ dumpTraits traits ++ "\n\n" ++
  "Context:\n" ++
  s!"- Generation: {generation}\n" ++
  s!"- Days since last evolution: {days}\n" ++
  "- Evolution should be subtle (1-2 traits max)\n" ++
  "- Maintain aesthetic coherence\n" ++
  "- Rarer traits should change less frequently\n\n" ++
  "Available trait options:\n" ++
  "- body_color: brown, tan, beige, gray, golden, silver, copper, bronze, blue, purple, green, pink, rainbow, galaxy, holographic, crystal\n" ++
  "- face_expression: happy, neutral, curious, sleepy, excited, mischievous, wise, cool, surprised, laughing, winking, zen, enlightened, cosmic, legendary, divine\n" ++
  "- accessory: none, simple_hat, bandana, bow, sunglasses, crown, headphones, monocle, laser_eyes, halo, horns, wizard_hat, golden_crown, diamond_chain, jetpack, wings\n" ++
  "- pattern: solid, spots, stripes, gradient, swirls, stars, hearts, diamonds, fractals, nebula, lightning, flames, aurora, quantum, cosmic_dust, void\n" ++
  "- background: white, blue_sky, green_grass, sunset, forest, beach, mountains, city, space, underwater, volcano, aurora, multiverse, black_hole, dimension_rift, heaven\n" ++
  "- special: none, sparkles, glow, shadow, aura, particles, energy, transcendent, godlike, mythical\n\n" ++
  "Rarity levels (from common to legendary):\n" ++
  "- common (60% chance): Basic traits\n" ++
  "- uncommon (25% chance): Special traits\n" ++
  "- rare (10% chance): Unique traits\n" ++
  "- legendary (5% chance): Ultra-rare traits\n\n" ++
  "Respond with a JSON object ONLY (no markdown formatting) indicating which traits to change:\n" ++
  lbraceS ++ "\n  \"changes\": [\n    " ++ lbraceS ++
  "\n      \"category\": \"body_color\",\n      \"new_value\": \"golden\",\n      \"new_rarity\": \"uncommon\",\n      \"reason\": \"Subtle shift to warmer tone\"\n    " ++
  rbraceS ++ "\n  ],\n  \"evolution_story\": \"Your lion is maturing, developing a golden sheen...\"\n" ++
  rbraceS ++ "\n\n" ++
  "Keep changes minimal (0-2 traits). Consider the lion's current aesthetic."

/-- The readable current-traits listing `evolve_with_ai` builds from
`dna.traits.items()` (insertion order = the fixed category order). -/
def current_traits_of (dna : LionDNA) : List (String × String × String) :=
  allCategories.filterMap fun c =>
    (dna.traits c).map fun t => (c.pyValue, t.value, t.rarity.pyValue)

/-- `evolve_with_ai`: build the prompt, call the provider, parse, apply;
any exception out of the `try` body (the provider call or the application
step — the parser never raises) is caught and answered with the random
fallback `GeneticsEngine.evolve(dna, evolution_strength=0.1)`. -/
def evolve_with_ai (generate_response : String → Nat → Option String)
    (geneticsEvolve : LionDNA → ℚ → LionDNA) (dna : LionDNA) (days_passed : Int) : LionDNA :=
  let prompt := create_evolution_prompt (current_traits_of dna) days_passed dna.generation
  match generate_response prompt 1024 with
  | none => geneticsEvolve dna (1 / 10)
  | some response_text =>
    match apply_evolution dna (parse_ai_response response_text) with
    | none => geneticsEvolve dna (1 / 10)
    | some evolved => evolved

/-- The change list `generate_evolution_story` collects: one entry per
category whose value differs, in category order; `none` embeds the
`KeyError` of a category missing from either record. -/
def story_changes (old_dna new_dna : LionDNA) : List TraitCategory → Option (List String)
  | [] => some []
  | c :: rest =>
    match old_dna.traits c, new_dna.traits c with
    | some ot, some nt =>
      (story_changes old_dna new_dna rest).map fun tail =>
        if ot.value ≠ nt.value then
          (c.pyValue ++ ": " ++ ot.value ++ " → " ++ nt.value) :: tail
        else tail
    | _, _ => none

/-- The story prompt (`chr(10)` is the newline). -/
def story_prompt (changes : List String) : String :=
  "Generate a short, whimsical story (2-3 sentences) about a lion's evolution.\n\n" ++
  "Changes that occurred:\n" ++ joinNL changes ++ "\n\n" ++
  "Make it fun and engaging, like a Tamagotchi update message."

/-- `generate_evolution_story`: diff every category; no differences ⇒ the
fixed no-changes sentence without touching the provider; otherwise the
provider's stripped reply, or on any provider failure the templated
sentence listing the raw changes. -/
def generate_evolution_story (generate_response : String → Nat → Option String)
    (old_dna new_dna : LionDNA) : Option String :=
  match story_changes old_dna new_dna allCategories with
  | none => none
  | some changes =>
    if changes.isEmpty then some "Your lion rested today. No visible changes."
    else
      match generate_response (story_prompt changes) 256 with
      | some reply => some (pyStrip reply)
      | none => some ("Your lion evolved! Changes: " ++ joinSep ", " changes)

end EvolutionAgent

section Visualizer
/-!
`LionVisualizer` (`src/visualizer.py`). Coordinates are Python ints,
embedded as `Int` (`//` and `%` against the positive divisors used here
agree with Lean's `/` and `%` on `Int`). Each drawing routine builds a
list of SVG fragments and joins it with newlines, exactly as the source
appends to a local list `p` (or `d`) and returns `"\n".join(p)`; the
element lists are separate definitions so theorems can speak about the
document's structure. The few trigonometric branches use `Float` like the
source uses `math.cos`/`math.sin`; their textual formatting of floats
approximates CPython's `repr`/`%.1f` (no claim inspects those
substrings). -/

/-- A body-color palette row of `BODY_COLORS`. -/
structure Palette where
  main : String
  shadow : String
  highlight : String
  mane : String
  mane2 : String
deriving DecidableEq

/-- The `"brown"` palette, also the default of the `.get` lookup. -/
def brownPalette : Palette :=
  ⟨"#CD853F", "#8B4513", "#DEB887", "#8B4513", "#6B3410"⟩

/-- The `BODY_COLORS` class dict. -/
def BODY_COLORS (k : String) : Option Palette :=
  if k = "brown" then some brownPalette
  else if k = "tan" then some ⟨"#D2B48C", "#B8956E", "#F4E4C1", "#A0784C", "#7A5A3A"⟩
  else if k = "beige" then some ⟨"#F5F5DC", "#D4D4B8", "#FFFFF0", "#C8B88A", "#A09068"⟩
  else if k = "golden" then some ⟨"#DAA520", "#B8860B", "#FFD700", "#B8860B", "#8B6508"⟩
  else if k = "white" then some ⟨"#F8F8F8", "#D8D8D8", "#FFFFFF", "#E0D8D0", "#C8C0B8"⟩
  else if k = "black" then some ⟨"#3A3A3A", "#1A1A1A", "#5A5A5A", "#1A1A1A", "#0A0A0A"⟩
  else if k = "gray" then some ⟨"#A0A0A0", "#707070", "#C8C8C8", "#606060", "#404040"⟩
  else if k = "silver" then some ⟨"#C0C0C0", "#909090", "#E8E8E8", "#808080", "#606060"⟩
  else if k = "copper" then some ⟨"#B87333", "#8B5A2B", "#DA8A4A", "#7A4A1A", "#5A3A10"⟩
  else if k = "bronze" then some ⟨"#CD7F32", "#A0622A", "#E0A050", "#7A4A1A", "#5A3210"⟩
  else if k = "blue" then some ⟨"#4A90D9", "#2A6AB0", "#7AB8FF", "#2A5A90", "#1A3A60"⟩
  else if k = "purple" then some ⟨"#9B59B6", "#6C3483", "#C39BD3", "#5B2C6F", "#3B1C4F"⟩
  else if k = "green" then some ⟨"#5DAE8B", "#3D8E6B", "#8DD8B0", "#2D6E4B", "#1D4E3B"⟩
  else if k = "pink" then some ⟨"#E8829A", "#C8627A", "#FFB0C8", "#A84060", "#882848"⟩
  else if k = "rainbow" then some ⟨"#FFB347", "#FF6B6B", "#FFFF88", "#9B59B6", "#4A90D9"⟩
  else if k = "galaxy" then some ⟨"#2C1654", "#1A0A30", "#6C3FA0", "#0D0D2B", "#1A0530"⟩
  else if k = "holographic" then some ⟨"#E0E8F0", "#A0D0E0", "#F0F8FF", "#C0A8D8", "#90D8C0"⟩
  else if k = "crystal" then some ⟨"#D4F1F9", "#88CCE8", "#EAFBFF", "#70B8D8", "#5098B8"⟩
  else none

/-- `cls.BODY_COLORS.get(key, cls.BODY_COLORS["brown"])`. -/
def bodyColorsGet (k : String) : Palette := (BODY_COLORS k).getD brownPalette

/-- The `BG_COLORS` class dict (declared by the source; the rendering
path reads its own `simple_fills` table instead). -/
def BG_COLORS (k : String) : Option (Option String × Option String) :=
  if k = "white" then some (some "#FFF5E6", none)
  else if k = "blue_sky" then some (none, some "sky")
  else if k = "green_grass" then some (none, some "grass")
  else if k = "sunset" then some (none, some "sunset")
  else if k = "forest" then some (none, some "forest")
  else if k = "beach" then some (none, some "beach")
  else if k = "mountains" then some (none, some "mountains")
  else if k = "city" then some (none, some "city")
  else if k = "space" then some (none, some "space")
  else if k = "underwater" then some (none, some "underwater")
  else if k = "volcano" then some (none, some "volcano")
  else if k = "aurora" then some (none, some "aurora_bg")
  else if k = "multiverse" then some (none, some "multiverse")
  else if k = "black_hole" then some (none, some "black_hole")
  else if k = "dimension_rift" then some (none, some "dimension_rift")
  else if k = "heaven" then some (none, some "heaven")
  else none

/-- The double constant `math.pi`. -/
def mathPi : Float := 3.141592653589793

/-- CPython precomputes `pi / 180.0` once for `math.radians`. -/
def degToRad : Float := mathPi / 180.0

/-- `math.radians`. -/
def radians (x : Float) : Float := x * degToRad

/-- Python `int()` on a float: truncation toward zero (the magnitudes
reached here are far below 2^53). -/
def pyInt (f : Float) : Int :=
  if f ≥ 0 then Int.ofNat (f.floor.toUInt64.toNat)
  else -(Int.ofNat ((-f).floor.toUInt64.toNat))

/-- Textual form of a float in an f-string: approximates CPython's
shortest-repr (trailing zeros trimmed down to one decimal); only
decorative substrings no theorem inspects use it. -/
def pyFloatRepr (f : Float) : String :=
  let s := toString f
  let cs := s.toList
  if cs.contains '.' then
    let rev := cs.reverse.dropWhile (fun c => c = '0')
    let rev := if rev.headD ' ' = '.' then '0' :: rev else rev
    String.mk rev.reverse
  else s

/-- `%.1f`-style formatting (approximating CPython's rounding with
round-half-away; decorative substrings only). -/
def fmt1 (f : Float) : String :=
  let n : Int := pyInt (if f ≥ 0 then f * 10 + 0.5 else f * 10 - 0.5)
  let m := n.natAbs
  (if n < 0 then "-" else "") ++ s!"{m / 10}.{m % 10}"

/-- Python `range(start, stop, step)` for a positive step. -/
def rangeInt (start stop step : Int) : List Int :=
  let n : Nat := (max 0 ((stop - start + step - 1) / step)).toNat
  (List.range n).map fun k => start + step * Int.ofNat k

/-- `range(n)` as `Int` indices. -/
def rangeN (n : Nat) : List Int := (List.range n).map Int.ofNat

/-- The element list local `d` of `_defs` (filters, background gradients,
the body clip path, and the rainbow mane gradient gated on
`t.get("body_color") == "rainbow"`). -/
def defsElems (tBody : String) (w h : Int) : List String :=
  ["<defs>",
   "<filter id=\"shadow\" x=\"-20%\" y=\"-20%\" width=\"140%\" height=\"140%\"><feDropShadow dx=\"2\" dy=\"4\" stdDeviation=\"3\" flood-opacity=\"0.3\"/></filter>",
   "<filter id=\"glow\"><feGaussianBlur in=\"SourceGraphic\" stdDeviation=\"8\" result=\"blur\"/><feMerge><feMergeNode in=\"blur\"/><feMergeNode in=\"SourceGraphic\"/></feMerge></filter>",
   "<filter id=\"glow-strong\"><feGaussianBlur in=\"SourceGraphic\" stdDeviation=\"15\" result=\"blur\"/><feMerge><feMergeNode in=\"blur\"/><feMergeNode in=\"blur\"/><feMergeNode in=\"SourceGraphic\"/></feMerge></filter>",
   "<linearGradient id=\"bg-sky\" x1=\"0%\" y1=\"0%\" x2=\"0%\" y2=\"100%\"><stop offset=\"0%\" stop-color=\"#87CEEB\"/><stop offset=\"100%\" stop-color=\"#E0F4FF\"/></linearGradient>",
   "<linearGradient id=\"bg-sunset\" x1=\"0%\" y1=\"0%\" x2=\"0%\" y2=\"100%\"><stop offset=\"0%\" stop-color=\"#FF4500\"/><stop offset=\"40%\" stop-color=\"#FF8C00\"/><stop offset=\"100%\" stop-color=\"#FFD700\"/></linearGradient>",
   "<linearGradient id=\"bg-forest\" x1=\"0%\" y1=\"0%\" x2=\"0%\" y2=\"100%\"><stop offset=\"0%\" stop-color=\"#2D5016\"/><stop offset=\"100%\" stop-color=\"#4A7A2E\"/></linearGradient>",
   "<linearGradient id=\"bg-grass\" x1=\"0%\" y1=\"0%\" x2=\"0%\" y2=\"100%\"><stop offset=\"0%\" stop-color=\"#87CEEB\"/><stop offset=\"60%\" stop-color=\"#87CEEB\"/><stop offset=\"60%\" stop-color=\"#7CCD7C\"/><stop offset=\"100%\" stop-color=\"#4A8B3F\"/></linearGradient>",
   "<linearGradient id=\"bg-beach\" x1=\"0%\" y1=\"0%\" x2=\"0%\" y2=\"100%\"><stop offset=\"0%\" stop-color=\"#87CEEB\"/><stop offset=\"50%\" stop-color=\"#87CEEB\"/><stop offset=\"50%\" stop-color=\"#F4D03F\"/><stop offset=\"100%\" stop-color=\"#E8C430\"/></linearGradient>",
   "<linearGradient id=\"bg-space\" x1=\"0%\" y1=\"0%\" x2=\"0%\" y2=\"100%\"><stop offset=\"0%\" stop-color=\"#0B0B2B\"/><stop offset=\"100%\" stop-color=\"#1A1A4A\"/></linearGradient>",
   "<linearGradient id=\"bg-underwater\" x1=\"0%\" y1=\"0%\" x2=\"0%\" y2=\"100%\"><stop offset=\"0%\" stop-color=\"#006994\"/><stop offset=\"100%\" stop-color=\"#003050\"/></linearGradient>",
   "<linearGradient id=\"bg-volcano\" x1=\"0%\" y1=\"0%\" x2=\"0%\" y2=\"100%\"><stop offset=\"0%\" stop-color=\"#1A0A00\"/><stop offset=\"60%\" stop-color=\"#4A1A00\"/><stop offset=\"100%\" stop-color=\"#FF4500\"/></linearGradient>",
   "<linearGradient id=\"bg-aurora-bg\" x1=\"0%\" y1=\"0%\" x2=\"100%\" y2=\"100%\"><stop offset=\"0%\" stop-color=\"#0B1A30\"/><stop offset=\"33%\" stop-color=\"#1A4A3A\"/><stop offset=\"66%\" stop-color=\"#2A1A5A\"/><stop offset=\"100%\" stop-color=\"#0B1A30\"/></linearGradient>",
   "<linearGradient id=\"bg-multiverse\" x1=\"0%\" y1=\"0%\" x2=\"100%\" y2=\"100%\"><stop offset=\"0%\" stop-color=\"#FF006E\"/><stop offset=\"25%\" stop-color=\"#8338EC\"/><stop offset=\"50%\" stop-color=\"#3A86FF\"/><stop offset=\"75%\" stop-color=\"#06D6A0\"/><stop offset=\"100%\" stop-color=\"#FFD166\"/></linearGradient>",
   "<radialGradient id=\"bg-black-hole\" cx=\"50%\" cy=\"50%\" r=\"50%\"><stop offset=\"0%\" stop-color=\"#000000\"/><stop offset=\"60%\" stop-color=\"#1A0530\"/><stop offset=\"100%\" stop-color=\"#4A1A70\"/></radialGradient>",
   "<linearGradient id=\"bg-dimension\" x1=\"0%\" y1=\"0%\" x2=\"100%\" y2=\"100%\"><stop offset=\"0%\" stop-color=\"#FF0080\"/><stop offset=\"50%\" stop-color=\"#0000FF\"/><stop offset=\"100%\" stop-color=\"#00FF80\"/></linearGradient>",
   "<linearGradient id=\"bg-heaven\" x1=\"0%\" y1=\"0%\" x2=\"0%\" y2=\"100%\"><stop offset=\"0%\" stop-color=\"#FFFDE0\"/><stop offset=\"100%\" stop-color=\"#FFF8E1\"/></linearGradient>",
   "<linearGradient id=\"bg-mountains\" x1=\"0%\" y1=\"0%\" x2=\"0%\" y2=\"100%\"><stop offset=\"0%\" stop-color=\"#87CEEB\"/><stop offset=\"100%\" stop-color=\"#B0C4DE\"/></linearGradient>",
   "<linearGradient id=\"bg-city\" x1=\"0%\" y1=\"0%\" x2=\"0%\" y2=\"100%\"><stop offset=\"0%\" stop-color=\"#1A1A2E\"/><stop offset=\"100%\" stop-color=\"#16213E\"/></linearGradient>",
   s!"<clipPath id=\"body-clip\"><circle cx=\"{w / 2}\" cy=\"{h / 2}\" r=\"88\"/></clipPath>"] ++
  (if tBody = "rainbow" then
    ["<linearGradient id=\"rainbow-mane\" x1=\"0%\" y1=\"0%\" x2=\"100%\" y2=\"100%\"><stop offset=\"0%\" stop-color=\"#FF6B6B\"/><stop offset=\"20%\" stop-color=\"#FFB347\"/><stop offset=\"40%\" stop-color=\"#FFFF88\"/><stop offset=\"60%\" stop-color=\"#88FF88\"/><stop offset=\"80%\" stop-color=\"#88BBFF\"/><stop offset=\"100%\" stop-color=\"#BB88FF\"/></linearGradient>"]
   else []) ++
  ["</defs>"]

/-- `_defs` (the source's `colors` parameter goes unused there and is
dropped; the `t` dict is read only at `"body_color"`). -/
def svg_defs (tBody : String) (w h : Int) : String := joinNL (defsElems tBody w h)

/-- The `simple_fills` table with its `.get` default `"#FFF5E6"`. -/
def simpleFill (bg : String) : String :=
  if bg = "white" then "#FFF5E6"
  else if bg = "blue_sky" then "url(#bg-sky)"
  else if bg = "green_grass" then "url(#bg-grass)"
  else if bg = "sunset" then "url(#bg-sunset)"
  else if bg = "forest" then "url(#bg-forest)"
  else if bg = "beach" then "url(#bg-beach)"
  else if bg = "space" then "url(#bg-space)"
  else if bg = "underwater" then "url(#bg-underwater)"
  else if bg = "volcano" then "url(#bg-volcano)"
  else if bg = "aurora" then "url(#bg-aurora-bg)"
  else if bg = "multiverse" then "url(#bg-multiverse)"
  else if bg = "black_hole" then "url(#bg-black-hole)"
  else if bg = "dimension_rift" then "url(#bg-dimension)"
  else if bg = "heaven" then "url(#bg-heaven)"
  else if bg = "mountains" then "url(#bg-mountains)"
  else if bg = "city" then "url(#bg-city)"
  else "#FFF5E6"

/-- The full-canvas backdrop rectangle every background starts with. -/
def backgroundRect (bg : String) (w h : Int) : String :=
  s!"<rect width=\"{w}\" height=\"{h}\" fill=\"{simpleFill bg}\"/>"

/-- The windows of one `city` building. -/
def cityWindows (seed bx bw bh h : Int) : List String :=
  (rangeInt (h - bh + 10) (h - 10) 20).map (fun wy =>
    (rangeInt (bx + 5) (bx + bw - 5) 10).map (fun wx =>
      let lit := (seed + wx + wy) % 3 ≠ 0
      let fill := if lit then "#FFD700" else "#1A1A2E"
      s!"<rect x=\"{wx}\" y=\"{wy}\" width=\"5\" height=\"8\" fill=\"{fill}\" opacity=\"0.8\"/>")) |>.flatten

/-- The fixed building footprint list of the `city` scene. -/
def cityBuildings : List (Int × Int) :=
  [(20, 140), (60, 180), (100, 120), (140, 200), (180, 150),
   (220, 190), (260, 130), (300, 170), (340, 160), (370, 140)]

/-- The scene elements appended after the backdrop rectangle, one branch
per recognized background (an unrecognized background appends nothing). -/
def sceneElems (bg : String) (w h seed : Int) : List String :=
  if bg = "blue_sky" then
    ((rangeN 3).map fun i =>
      let cx := 60 + (seed + i * 137) % (w - 120)
      let cy := 30 + (seed + i * 53) % 80
      [s!"<ellipse cx=\"{cx}\" cy=\"{cy}\" rx=\"40\" ry=\"18\" fill=\"white\" opacity=\"0.7\"/>",
       s!"<ellipse cx=\"{cx + 25}\" cy=\"{cy - 5}\" rx=\"30\" ry=\"15\" fill=\"white\" opacity=\"0.6\"/>"]).flatten
  else if bg = "sunset" then
    [s!"<circle cx=\"{w / 2}\" cy=\"{h / 2 + 40}\" r=\"60\" fill=\"#FFD700\" opacity=\"0.5\"/>"]
  else if bg = "green_grass" ∨ bg = "savanna" then
    [s!"<circle cx=\"{w - 60}\" cy=\"50\" r=\"30\" fill=\"#FFD700\" opacity=\"0.8\"/>"] ++
    ((rangeN 8).map fun i =>
      let x := 20 + (seed + i * 47) % (w - 40)
      s!"<line x1=\"{x}\" y1=\"{h}\" x2=\"{x - 5}\" y2=\"{h - 20}\" stroke=\"#5A8A3A\" stroke-width=\"2\"/>")
  else if bg = "forest" then
    ((rangeN 5).map fun i =>
      let tx := 30 + (seed + i * 71) % (w - 60)
      let th := 60 + (seed + i * 31) % 40
      [s!"<polygon points=\"{tx},{h - th} {tx - 15},{h - 10} {tx + 15},{h - 10}\" fill=\"#1A4010\" opacity=\"0.5\"/>",
       s!"<rect x=\"{tx - 3}\" y=\"{h - 15}\" width=\"6\" height=\"15\" fill=\"#5A3A1A\" opacity=\"0.5\"/>"]).flatten
  else if bg = "beach" then
    [s!"<path d=\"M0 {h / 2 - 10} Q{w / 4} {h / 2 - 25} {w / 2} {h / 2 - 10} T{w} {h / 2 - 10}\" stroke=\"#5DADE2\" stroke-width=\"2\" fill=\"none\" opacity=\"0.5\"/>"]
  else if bg = "mountains" then
    [s!"<polygon points=\"0,{h} 80,{h - 180} 160,{h}\" fill=\"#6C7A89\" opacity=\"0.6\"/>",
     s!"<polygon points=\"100,{h} 200,{h - 220} 300,{h}\" fill=\"#7F8C8D\" opacity=\"0.5\"/>",
     s!"<polygon points=\"250,{h} 340,{h - 160} 400,{h}\" fill=\"#6C7A89\" opacity=\"0.6\"/>",
     s!"<polygon points=\"65,{h - 165} 80,{h - 180} 95,{h - 165}\" fill=\"white\" opacity=\"0.8\"/>",
     s!"<polygon points=\"180,{h - 200} 200,{h - 220} 220,{h - 200}\" fill=\"white\" opacity=\"0.8\"/>"]
  else if bg = "city" then
    (cityBuildings.map fun b =>
      let bx := b.1
      let bh := b.2
      let bw := 30 + (seed + bx) % 15
      s!"<rect x=\"{bx}\" y=\"{h - bh}\" width=\"{bw}\" height=\"{bh}\" fill=\"#0F3460\" opacity=\"0.7\"/>" ::
        cityWindows seed bx bw bh h).flatten
  else if bg = "space" then
    ((rangeN 30).map fun i =>
      let sx := (seed * (i + 1) * 7) % w
      let sy := (seed * (i + 1) * 13) % h
      let sr := 1 + i % 3
      let op := pyFloatRepr (0.4 + Float.ofInt (i % 5) * 0.12)
      s!"<circle cx=\"{sx}\" cy=\"{sy}\" r=\"{sr}\" fill=\"white\" opacity=\"{op}\"/>") ++
    [s!"<circle cx=\"{w / 3}\" cy=\"{h / 3}\" r=\"80\" fill=\"#9B59B6\" opacity=\"0.08\"/>",
     s!"<circle cx=\"{w * 2 / 3}\" cy=\"{h * 2 / 3}\" r=\"60\" fill=\"#3498DB\" opacity=\"0.08\"/>"]
  else if bg = "underwater" then
    ((rangeN 12).map fun i =>
      let bx := (seed * (i + 1) * 11) % w
      let yb := (seed * (i + 1) * 17) % h
      let br := 3 + i % 6
      s!"<circle cx=\"{bx}\" cy=\"{yb}\" r=\"{br}\" fill=\"none\" stroke=\"#80D0E0\" stroke-width=\"1\" opacity=\"0.4\"/>") ++
    ((rangeN 4).map fun i =>
      let sx := 40 + (seed + i * 97) % (w - 80)
      s!"<path d=\"M{sx} {h} Q{sx + 10} {h - 40} {sx - 5} {h - 70} Q{sx + 15} {h - 100} {sx} {h - 120}\" stroke=\"#2E8B57\" stroke-width=\"4\" fill=\"none\" opacity=\"0.5\"/>")
  else if bg = "volcano" then
    [s!"<circle cx=\"{w / 2}\" cy=\"{h}\" r=\"120\" fill=\"#FF4500\" opacity=\"0.15\"/>"] ++
    ((rangeN 8).map fun i =>
      let ex := (seed * (i + 1) * 23) % w
      let ey := (seed * (i + 1) * 37) % h
      s!"<circle cx=\"{ex}\" cy=\"{ey}\" r=\"2\" fill=\"#FF6347\" opacity=\"0.6\"/>")
  else if bg = "aurora" then
    ((rangeN 3).map fun i =>
      let y := 40 + i * 50
      let color := (["#00FF88", "#8800FF", "#00AAFF"].getD i.toNat "#00FF88")
      s!"<path d=\"M0 {y} Q100 {y - 30} 200 {y + 10} T400 {y}\" stroke=\"{color}\" stroke-width=\"20\" fill=\"none\" opacity=\"0.15\"/>") ++
    ((rangeN 15).map fun i =>
      let sx := (seed * (i + 1) * 7) % w
      let sy := (seed * (i + 1) * 13) % (h / 2)
      s!"<circle cx=\"{sx}\" cy=\"{sy}\" r=\"1.5\" fill=\"white\" opacity=\"0.6\"/>")
  else if bg = "heaven" then
    ((rangeN 5).map fun i =>
      let cx := (seed * (i + 1) * 41) % w
      let cy := (seed * (i + 1) * 29) % h
      s!"<ellipse cx=\"{cx}\" cy=\"{cy}\" rx=\"50\" ry=\"20\" fill=\"white\" opacity=\"0.3\"/>") ++
    ((rangeN 6).map fun i =>
      let angle := i * 30 - 75
      let x2 := w / 2 + pyInt (200 * Float.sin (radians (Float.ofInt angle)))
      let y2 := pyInt (200 * Float.cos (radians (Float.ofInt angle)))
      s!"<line x1=\"{w / 2}\" y1=\"0\" x2=\"{x2}\" y2=\"{y2}\" stroke=\"#FFD700\" stroke-width=\"3\" opacity=\"0.1\"/>")
  else if bg = "black_hole" then
    [s!"<ellipse cx=\"{w / 2}\" cy=\"{h / 2}\" rx=\"180\" ry=\"40\" fill=\"none\" stroke=\"#9B59B6\" stroke-width=\"3\" opacity=\"0.3\" transform=\"rotate(-20 {w / 2} {h / 2})\"/>",
     s!"<ellipse cx=\"{w / 2}\" cy=\"{h / 2}\" rx=\"150\" ry=\"30\" fill=\"none\" stroke=\"#FF6B6B\" stroke-width=\"2\" opacity=\"0.2\" transform=\"rotate(-20 {w / 2} {h / 2})\"/>"]
  else if bg = "multiverse" then
    (rangeN 3).map fun i =>
      let px := 50 + (seed * (i + 1) * 43) % (w - 100)
      let py := 50 + (seed * (i + 1) * 67) % (h - 100)
      s!"<circle cx=\"{px}\" cy=\"{py}\" r=\"25\" fill=\"none\" stroke=\"white\" stroke-width=\"2\" opacity=\"0.2\"/>"
  else if bg = "dimension_rift" then
    [s!"<path d=\"M{w / 2} 0 L{w / 2 + 20} {h / 3} L{w / 2 - 10} {h * 2 / 3} L{w / 2 + 5} {h}\" stroke=\"white\" stroke-width=\"3\" fill=\"none\" opacity=\"0.3\"/>"]
  else []

/-- The element list `p` of `_background`: backdrop rectangle, then the
scene of the recognized background. -/
def backgroundElems (bg : String) (w h seed : Int) : List String :=
  backgroundRect bg w h :: sceneElems bg w h seed

/-- `_background`. -/
def background (bg : String) (w h seed : Int) : String :=
  joinNL (backgroundElems bg w h seed)

/-- `_star_shape`: a ten-point polygon alternating the outer and inner
radius, coordinates formatted `%.1f`. -/
def star_shape (cx cy : Int) (outer inner : Float) (color : String) : String :=
  let pts := (rangeN 10).map fun i =>
    let angle := radians (Float.ofInt (i * 36 - 90))
    let r := if i % 2 = 0 then outer else inner
    fmt1 (Float.ofInt cx + r * Float.cos angle) ++ "," ++ fmt1 (Float.ofInt cy + r * Float.sin angle)
  let ptsS := joinSep " " pts
  s!"<polygon points=\"{ptsS}\" fill=\"{color}\"/>"

/-- `_heart_shape` (its one call site passes the integer size 8; the
mixed int/float coordinate arithmetic of the f-string is kept: an
int-only subterm prints as an int, a float subterm as a float). -/
def heart_shape (cx cy : Int) (size : Int) (color : String) : String :=
  let s := size
  let sf := Float.ofInt size
  let cyf := Float.ofInt cy
  let cxf := Float.ofInt cx
  let a1 := pyFloatRepr (cyf + sf * 0.6)
  let a2 := pyFloatRepr (cyf - sf * 0.2)
  let a3 := pyFloatRepr (cxf - sf * 0.5)
  let a4 := pyFloatRepr (cyf - sf * 0.6)
  let a5 := pyFloatRepr (cxf + sf * 0.5)
  s!"<path d=\"M{cx} {a1} " ++
  s!"Q{cx - s} {a2} {a3} {a4} " ++
  s!"Q{cx} {cy - s} {cx} {a2} " ++
  s!"Q{cx} {cy - s} {a5} {a4} " ++
  s!"Q{cx + s} {a2} {cx} {a1} Z\" fill=\"{color}\"/>"

/-- The fractional degree steps `i * 22.5` of the mane petals, printed as
Python prints the exactly-representable floats 0.0, 22.5, 45.0, …. -/
def petalAngle (i : Int) : String :=
  let n := i * 225
  s!"{n / 10}.{n % 10}"

/-- The rosette / patch fallback branch of `_pattern` (the `else` arm an
unrecognized pattern value reaches). -/
def rosetteElems (cx cy : Int) (dark : String) (seed : Int) : List String :=
  (rangeN 8).map fun i =>
    let rx := cx - 50 + (seed * (i + 1) * 67) % 100
    let ry_pos := cy - 50 + (seed * (i + 1) * 71) % 100
    let r := 8 + i % 5
    s!"<circle cx=\"{rx}\" cy=\"{ry_pos}\" r=\"{r}\" fill=\"none\" stroke=\"{dark}\" stroke-width=\"2\"/>"

/-- The luminous-overlay colour tables of the legendary patterns, with
the source's `.get` default. -/
def legendaryPatternCols (patv : String) : List String :=
  if patv = "aurora" then ["#00FF88", "#8800FF", "#00AAFF"]
  else if patv = "quantum" then ["#00FFFF", "#FF00FF", "#FFFF00"]
  else if patv = "cosmic_dust" then ["#FFD700", "#FF69B4", "#87CEEB"]
  else if patv = "void" then ["#2C003E", "#000000", "#1A001A"]
  else ["#888"]

/-- The branch body of `_pattern` between the clip-group tags. In the
`gradient` arm the source appends an animated rectangle and immediately
overwrites it (`p[-1] = …`) with the plain ellipse, so the ellipse is the
net element. -/
def patternBody (patv : String) (cx cy : Int) (dark : String) (seed : Int) : List String :=
  if patv = "spots" then
    (rangeN 12).map fun i =>
      let sx := cx - 60 + (seed * (i + 1) * 13) % 120
      let sy := cy - 60 + (seed * (i + 1) * 17) % 120
      let sr := 5 + (seed + i) % 8
      s!"<circle cx=\"{sx}\" cy=\"{sy}\" r=\"{sr}\" fill=\"{dark}\"/>"
  else if patv = "stripes" then
    (rangeN 7).map fun i =>
      let y := cy - 70 + i * 24
      s!"<rect x=\"{cx - 85}\" y=\"{y}\" width=\"170\" height=\"8\" rx=\"4\" fill=\"{dark}\"/>"
  else if patv = "gradient" then
    [s!"<ellipse cx=\"{cx}\" cy=\"{cy + 40}\" rx=\"88\" ry=\"60\" fill=\"{dark}\" opacity=\"0.25\"/>"]
  else if patv = "swirls" then
    [s!"<path d=\"M{cx - 40} {cy} Q{cx - 20} {cy - 40} {cx} {cy} T{cx + 40} {cy}\" stroke=\"{dark}\" stroke-width=\"4\" fill=\"none\"/>",
     s!"<path d=\"M{cx - 30} {cy + 20} Q{cx} {cy - 10} {cx + 30} {cy + 20}\" stroke=\"{dark}\" stroke-width=\"3\" fill=\"none\"/>"]
  else if patv = "stars" then
    (rangeN 8).map fun i =>
      let sx := cx - 50 + (seed * (i + 1) * 19) % 100
      let sy := cy - 50 + (seed * (i + 1) * 23) % 100
      star_shape sx sy 6 3 dark
  else if patv = "hearts" then
    (rangeN 6).map fun i =>
      let hx := cx - 45 + (seed * (i + 1) * 31) % 90
      let hy := cy - 45 + (seed * (i + 1) * 37) % 90
      heart_shape hx hy 8 dark
  else if patv = "diamonds" then
    (rangeN 8).map fun i =>
      let dx := cx - 50 + (seed * (i + 1) * 41) % 100
      let dy := cy - 50 + (seed * (i + 1) * 43) % 100
      let s := (8 : Int)
      s!"<polygon points=\"{dx},{dy - s} {dx + s},{dy} {dx},{dy + s} {dx - s},{dy}\" fill=\"{dark}\"/>"
  else if patv = "fractals" then
    (rangeN 10).map fun i =>
      let fx := cx - 50 + (seed * (i + 1) * 47) % 100
      let fy := cy - 50 + (seed * (i + 1) * 53) % 100
      let s := 6 + i % 5
      s!"<polygon points=\"{fx},{fy - s} {fx + s},{fy + s} {fx - s},{fy + s}\" fill=\"{dark}\" opacity=\"0.6\"/>"
  else if patv = "nebula" then
    (rangeN 4).map fun i =>
      let nx := cx - 40 + (seed * (i + 1) * 59) % 80
      let ny := cy - 40 + (seed * (i + 1) * 61) % 80
      let col := ["#9B59B6", "#3498DB", "#E74C3C", "#2ECC71"].getD i.toNat "#9B59B6"
      s!"<circle cx=\"{nx}\" cy=\"{ny}\" r=\"{15 + i * 5}\" fill=\"{col}\" opacity=\"0.15\"/>"
  else if patv = "lightning" then
    [s!"<path d=\"M{cx - 20} {cy - 60} L{cx - 5} {cy - 10} L{cx - 15} {cy - 10} L{cx + 10} {cy + 50}\" stroke=\"#FFD700\" stroke-width=\"3\" fill=\"none\"/>"]
  else if patv = "flames" then
    (rangeN 5).map fun i =>
      let fx := cx - 30 + i * 15
      s!"<path d=\"M{fx} {cy + 60} Q{fx + 5} {cy + 20} {fx - 3} {cy + 10} Q{fx + 8} {cy - 10} {fx + 2} {cy - 20}\" stroke=\"#FF4500\" stroke-width=\"2\" fill=\"none\" opacity=\"0.6\"/>"
  else if patv = "aurora" ∨ patv = "quantum" ∨ patv = "cosmic_dust" ∨ patv = "void" then
    (legendaryPatternCols patv).enum.map fun e =>
      let i := Int.ofNat e.1
      let col := e.2
      let ny := cy - 30 + i * 30
      s!"<ellipse cx=\"{cx}\" cy=\"{ny}\" rx=\"80\" ry=\"20\" fill=\"{col}\" opacity=\"0.15\"/>"
  else
    rosetteElems cx cy dark seed

/-- `_pattern`: empty for `solid`/`none`, otherwise the branch body
clipped to the head silhouette. -/
def pattern (patv : String) (cx cy : Int) (c : Palette) (seed : Int) : String :=
  if patv = "solid" ∨ patv = "none" then ""
  else
    joinNL ("<g clip-path=\"url(#body-clip)\" opacity=\"0.3\">" ::
      (patternBody patv cx cy c.shadow seed ++ ["</g>"]))

/-- The element list `p` of `_body`: sixteen mane petals, the inner mane
ring, two ears (two elements each), head, cheeks, then the pattern
overlay string as a final element. (The source's `mane_fill` local is
computed and never used.) -/
def bodyElems (c : Palette) (patv : String) (cx cy : Int) (seed : Int) : List String :=
  ((rangeN 16).map fun i =>
    let angle := petalAngle i
    let rx := 130 + (seed + i * 7) % 20
    let ry := 55 + (seed + i * 11) % 15
    let mane := c.mane
    s!"<ellipse cx=\"{cx}\" cy=\"{cy}\" rx=\"{rx}\" ry=\"{ry}\" fill=\"{mane}\" " ++
      s!"transform=\"rotate({angle} {cx} {cy})\" opacity=\"0.75\"/>") ++
  [s!"<circle cx=\"{cx}\" cy=\"{cy}\" r=\"110\" fill=\"{c.mane2}\" opacity=\"0.5\"/>"] ++
  (([-68, 68] : List Int).map fun dx =>
    let ex := cx + dx
    let ey := cy - 68
    [s!"<circle cx=\"{ex}\" cy=\"{ey}\" r=\"22\" fill=\"{c.main}\"/>",
     s!"<circle cx=\"{ex}\" cy=\"{ey}\" r=\"12\" fill=\"{c.highlight}\" opacity=\"0.5\"/>"]).flatten ++
  [s!"<circle cx=\"{cx}\" cy=\"{cy}\" r=\"90\" fill=\"{c.main}\" filter=\"url(#shadow)\"/>",
   s!"<ellipse cx=\"{cx}\" cy=\"{cy + 30}\" rx=\"48\" ry=\"38\" fill=\"{c.highlight}\" opacity=\"0.5\"/>",
   pattern patv cx cy c seed]

/-- `_body`. -/
def body (c : Palette) (patv : String) (cx cy : Int) (seed : Int) : String :=
  joinNL (bodyElems c patv cx cy seed)

/-- The eye elements of `_face` (`eye_y = cy - 12`). -/
def eyeElems (expr : String) (cx cy : Int) : List String :=
  let eye_y := cy - 12
  if expr = "sleepy" then
    [s!"<line x1=\"{cx - 40}\" y1=\"{eye_y}\" x2=\"{cx - 20}\" y2=\"{eye_y}\" stroke=\"#000\" stroke-width=\"3\" stroke-linecap=\"round\"/>",
     s!"<line x1=\"{cx + 20}\" y1=\"{eye_y}\" x2=\"{cx + 40}\" y2=\"{eye_y}\" stroke=\"#000\" stroke-width=\"3\" stroke-linecap=\"round\"/>"]
  else if expr = "surprised" then
    (([-30, 30] : List Int).map fun dx =>
      [s!"<circle cx=\"{cx + dx}\" cy=\"{eye_y}\" r=\"14\" fill=\"white\" stroke=\"#000\" stroke-width=\"2\"/>",
       s!"<circle cx=\"{cx + dx}\" cy=\"{eye_y}\" r=\"6\" fill=\"#000\"/>",
       s!"<circle cx=\"{cx + dx + 2}\" cy=\"{eye_y - 3}\" r=\"2\" fill=\"white\"/>"]).flatten
  else if expr = "winking" then
    [s!"<ellipse cx=\"{cx - 30}\" cy=\"{eye_y}\" rx=\"11\" ry=\"10\" fill=\"#FFD700\"/>",
     s!"<circle cx=\"{cx - 30}\" cy=\"{eye_y}\" r=\"4\" fill=\"#000\"/>",
     s!"<path d=\"M{cx + 20} {eye_y} Q{cx + 30} {eye_y - 8} {cx + 40} {eye_y}\" stroke=\"#000\" stroke-width=\"2.5\" fill=\"none\" stroke-linecap=\"round\"/>"]
  else if expr = "angry" then
    (([-30, 30] : List Int).map fun dx =>
      [s!"<ellipse cx=\"{cx + dx}\" cy=\"{eye_y}\" rx=\"11\" ry=\"8\" fill=\"#FF4444\"/>",
       s!"<circle cx=\"{cx + dx}\" cy=\"{eye_y}\" r=\"4\" fill=\"#000\"/>"]).flatten ++
    [s!"<line x1=\"{cx - 42}\" y1=\"{eye_y - 14}\" x2=\"{cx - 18}\" y2=\"{eye_y - 20}\" stroke=\"#000\" stroke-width=\"3\" stroke-linecap=\"round\"/>",
     s!"<line x1=\"{cx + 42}\" y1=\"{eye_y - 14}\" x2=\"{cx + 18}\" y2=\"{eye_y - 20}\" stroke=\"#000\" stroke-width=\"3\" stroke-linecap=\"round\"/>"]
  else if expr = "cool" then
    (([-30, 30] : List Int).map fun dx =>
      [s!"<ellipse cx=\"{cx + dx}\" cy=\"{eye_y}\" rx=\"12\" ry=\"7\" fill=\"#FFD700\"/>",
       s!"<ellipse cx=\"{cx + dx}\" cy=\"{eye_y}\" r=\"4\" fill=\"#000\"/>",
       s!"<line x1=\"{cx + dx - 14}\" y1=\"{eye_y - 8}\" x2=\"{cx + dx + 14}\" y2=\"{eye_y - 8}\" stroke=\"#000\" stroke-width=\"2\"/>"]).flatten
  else if expr = "zen" ∨ expr = "enlightened" ∨ expr = "cosmic" ∨ expr = "divine" then
    (([-30, 30] : List Int).map fun dx =>
      s!"<path d=\"M{cx + dx - 12} {eye_y} Q{cx + dx} {eye_y - 10} {cx + dx + 12} {eye_y}\" stroke=\"#000\" stroke-width=\"2.5\" fill=\"none\" stroke-linecap=\"round\"/>") ++
    (if expr = "enlightened" ∨ expr = "divine" then
      [s!"<circle cx=\"{cx}\" cy=\"{eye_y - 25}\" r=\"4\" fill=\"#FFD700\" opacity=\"0.7\"/>"]
     else []) ++
    (if expr = "cosmic" then
      ([-30, 30] : List Int).map fun dx =>
        s!"<circle cx=\"{cx + dx}\" cy=\"{eye_y + 4}\" r=\"2\" fill=\"#FFD700\" opacity=\"0.5\"/>"
     else [])
  else if expr = "laughing" then
    ([-30, 30] : List Int).map fun dx =>
      s!"<path d=\"M{cx + dx - 12} {eye_y + 2} Q{cx + dx} {eye_y - 10} {cx + dx + 12} {eye_y + 2}\" stroke=\"#000\" stroke-width=\"2.5\" fill=\"none\" stroke-linecap=\"round\"/>"
  else if expr = "legendary" then
    (([-30, 30] : List Int).map fun dx =>
      [s!"<circle cx=\"{cx + dx}\" cy=\"{eye_y}\" r=\"12\" fill=\"#FFD700\" opacity=\"0.4\"/>",
       s!"<circle cx=\"{cx + dx}\" cy=\"{eye_y}\" r=\"8\" fill=\"#FFF\"/>",
       s!"<circle cx=\"{cx + dx}\" cy=\"{eye_y}\" r=\"4\" fill=\"#FFD700\"/>"]).flatten
  else
    let eye_color := if expr = "fierce" then "#FF6600"
      else if expr = "mischievous" then "#88DD44" else "#FFD700"
    let pupil_r : Int := if expr = "fierce" then 3 else if expr = "excited" then 5 else 4
    (([-30, 30] : List Int).map fun dx =>
      [s!"<ellipse cx=\"{cx + dx}\" cy=\"{eye_y}\" rx=\"12\" ry=\"10\" fill=\"{eye_color}\"/>",
       s!"<circle cx=\"{cx + dx}\" cy=\"{eye_y}\" r=\"{pupil_r}\" fill=\"#000\"/>",
       s!"<circle cx=\"{cx + dx + 2}\" cy=\"{eye_y - 2}\" r=\"2\" fill=\"white\" opacity=\"0.7\"/>"]).flatten ++
    (if expr = "wise" then
      [s!"<circle cx=\"{cx - 30}\" cy=\"{eye_y}\" r=\"14\" fill=\"none\" stroke=\"#000\" stroke-width=\"1\" opacity=\"0.3\"/>",
       s!"<circle cx=\"{cx + 30}\" cy=\"{eye_y}\" r=\"14\" fill=\"none\" stroke=\"#000\" stroke-width=\"1\" opacity=\"0.3\"/>"]
     else [])

/-- The mouth elements of `_face` (`mouth_y = nose_y + 18`). -/
def mouthElems (expr : String) (cx cy : Int) : List String :=
  let nose_y := cy + 20
  let mouth_y := nose_y + 18
  if expr = "happy" ∨ expr = "excited" then
    [s!"<path d=\"M{cx - 22} {mouth_y} Q{cx} {mouth_y + 18} {cx + 22} {mouth_y}\" stroke=\"#3E2723\" stroke-width=\"2.5\" fill=\"none\" stroke-linecap=\"round\"/>"]
  else if expr = "angry" ∨ expr = "fierce" then
    [s!"<path d=\"M{cx - 22} {mouth_y + 8} Q{cx} {mouth_y - 8} {cx + 22} {mouth_y + 8}\" stroke=\"#3E2723\" stroke-width=\"2.5\" fill=\"none\" stroke-linecap=\"round\"/>"] ++
    (if expr = "fierce" then
      [s!"<polygon points=\"{cx - 12},{mouth_y} {cx - 9},{mouth_y + 10} {cx - 6},{mouth_y}\" fill=\"white\" stroke=\"#3E2723\" stroke-width=\"0.5\"/>",
       s!"<polygon points=\"{cx + 6},{mouth_y} {cx + 9},{mouth_y + 10} {cx + 12},{mouth_y}\" fill=\"white\" stroke=\"#3E2723\" stroke-width=\"0.5\"/>"]
     else [])
  else if expr = "surprised" then
    [s!"<ellipse cx=\"{cx}\" cy=\"{mouth_y + 5}\" rx=\"10\" ry=\"12\" fill=\"#3E2723\"/>"]
  else if expr = "sleepy" then
    [s!"<ellipse cx=\"{cx}\" cy=\"{mouth_y + 2}\" rx=\"8\" ry=\"6\" fill=\"#3E2723\" opacity=\"0.6\"/>"]
  else if expr = "laughing" then
    [s!"<path d=\"M{cx - 25} {mouth_y - 2} Q{cx} {mouth_y + 25} {cx + 25} {mouth_y - 2}\" stroke=\"#3E2723\" stroke-width=\"2\" fill=\"#3E2723\" opacity=\"0.5\"/>"]
  else if expr = "mischievous" then
    [s!"<path d=\"M{cx - 15} {mouth_y + 2} Q{cx + 5} {mouth_y + 10} {cx + 22} {mouth_y - 4}\" stroke=\"#3E2723\" stroke-width=\"2.5\" fill=\"none\" stroke-linecap=\"round\"/>"]
  else if expr = "cool" then
    [s!"<path d=\"M{cx - 18} {mouth_y + 2} Q{cx} {mouth_y + 10} {cx + 18} {mouth_y}\" stroke=\"#3E2723\" stroke-width=\"2\" fill=\"none\" stroke-linecap=\"round\"/>"]
  else if expr = "zen" ∨ expr = "enlightened" ∨ expr = "cosmic" ∨ expr = "divine" ∨ expr = "legendary" then
    [s!"<path d=\"M{cx - 15} {mouth_y} Q{cx} {mouth_y + 8} {cx + 15} {mouth_y}\" stroke=\"#3E2723\" stroke-width=\"2\" fill=\"none\" stroke-linecap=\"round\"/>"]
  else if expr = "winking" then
    [s!"<path d=\"M{cx - 20} {mouth_y} Q{cx} {mouth_y + 14} {cx + 20} {mouth_y}\" stroke=\"#3E2723\" stroke-width=\"2.5\" fill=\"none\" stroke-linecap=\"round\"/>",
     s!"<ellipse cx=\"{cx + 5}\" cy=\"{mouth_y + 8}\" rx=\"5\" ry=\"4\" fill=\"#E88090\"/>"]
  else
    [s!"<line x1=\"{cx - 15}\" y1=\"{mouth_y}\" x2=\"{cx + 15}\" y2=\"{mouth_y}\" stroke=\"#3E2723\" stroke-width=\"2\" stroke-linecap=\"round\"/>"]

/-- The element list `p` of `_face`: expression-specific eyes, the nose,
the expression-specific mouth, and the four whiskers. -/
def faceElems (expr : String) (cx cy : Int) : List String :=
  let nose_y := cy + 20
  eyeElems expr cx cy ++
  [s!"<path d=\"M{cx - 12} {nose_y} Q{cx} {nose_y - 8} {cx + 12} {nose_y} L{cx} {nose_y + 12} Z\" fill=\"#3E2723\"/>"] ++
  mouthElems expr cx cy ++
  (([-1, 1] : List Int).map fun side =>
    ([-5, 5] : List Int).map fun wy =>
      let wx1 := cx + side * 30
      let wx2 := cx + side * 70
      s!"<line x1=\"{wx1}\" y1=\"{nose_y + wy}\" x2=\"{wx2}\" y2=\"{nose_y + wy + side * 3}\" stroke=\"#3E2723\" stroke-width=\"1\" opacity=\"0.3\"/>").flatten

/-- `_face` (the source's `colors` parameter goes unused and is dropped). -/
def face (expr : String) (cx cy : Int) : String :=
  joinNL (faceElems expr cx cy)

/-- The element list `p` of `_accessory` for a non-`"none"` accessory
(empty when no branch matches). The `colors` parameter of the source goes
unused and is dropped. -/
def accessoryElems (acc : String) (cx cy : Int) : List String :=
  if acc = "crown" ∨ acc = "golden_crown" then
    let color := if acc = "crown" then "#FFD700" else "#FFC800"
    let stroke := if acc = "crown" then "#B8860B" else "#DAA520"
    let y := cy - 95
    [s!"<polygon points=\"{cx - 30},{y + 20} {cx - 30},{y} {cx - 18},{y + 12} {cx - 6},{y - 5} {cx},{y + 8} {cx + 6},{y - 5} {cx + 18},{y + 12} {cx + 30},{y} {cx + 30},{y + 20}\" fill=\"{color}\" stroke=\"{stroke}\" stroke-width=\"1.5\"/>"] ++
    (if acc = "golden_crown" then
      ([-15, 0, 15] : List Int).map fun jx =>
        s!"<circle cx=\"{cx + jx}\" cy=\"{y + 8}\" r=\"3\" fill=\"#FF0040\"/>"
     else [])
  else if acc = "sunglasses" then
    let y := cy - 14
    [s!"<rect x=\"{cx - 46}\" y=\"{y - 10}\" width=\"28\" height=\"18\" rx=\"4\" fill=\"#111\" opacity=\"0.85\"/>",
     s!"<rect x=\"{cx + 18}\" y=\"{y - 10}\" width=\"28\" height=\"18\" rx=\"4\" fill=\"#111\" opacity=\"0.85\"/>",
     s!"<line x1=\"{cx - 18}\" y1=\"{y}\" x2=\"{cx + 18}\" y2=\"{y}\" stroke=\"#333\" stroke-width=\"2\"/>",
     s!"<line x1=\"{cx - 46}\" y1=\"{y - 4}\" x2=\"{cx - 60}\" y2=\"{y - 10}\" stroke=\"#333\" stroke-width=\"2\"/>",
     s!"<line x1=\"{cx + 46}\" y1=\"{y - 4}\" x2=\"{cx + 60}\" y2=\"{y - 10}\" stroke=\"#333\" stroke-width=\"2\"/>"]
  else if acc = "monocle" then
    let y := cy - 12
    [s!"<circle cx=\"{cx + 30}\" cy=\"{y}\" r=\"16\" fill=\"none\" stroke=\"#B8860B\" stroke-width=\"2\"/>",
     s!"<line x1=\"{cx + 30}\" y1=\"{y + 16}\" x2=\"{cx + 25}\" y2=\"{cy + 60}\" stroke=\"#B8860B\" stroke-width=\"1\"/>",
     s!"<path d=\"M{cx + 24} {y - 8} Q{cx + 28} {y - 12} {cx + 34} {y - 8}\" stroke=\"white\" stroke-width=\"1\" fill=\"none\" opacity=\"0.5\"/>"]
  else if acc = "bow" then
    let y := cy - 85
    [s!"<path d=\"M{cx + 35} {y} Q{cx + 55} {y - 15} {cx + 55} {y + 15} Z\" fill=\"#FF69B4\"/>",
     s!"<path d=\"M{cx + 35} {y} Q{cx + 15} {y - 15} {cx + 15} {y + 15} Z\" fill=\"#FF69B4\"/>",
     s!"<circle cx=\"{cx + 35}\" cy=\"{y}\" r=\"4\" fill=\"#FF1493\"/>"]
  else if acc = "simple_hat" then
    let y := cy - 95
    [s!"<ellipse cx=\"{cx}\" cy=\"{y + 20}\" rx=\"55\" ry=\"10\" fill=\"#8B4513\"/>",
     s!"<rect x=\"{cx - 30}\" y=\"{y - 10}\" width=\"60\" height=\"30\" rx=\"5\" fill=\"#A0522D\"/>"]
  else if acc = "bandana" then
    let y := cy - 80
    [s!"<path d=\"M{cx - 60} {y} Q{cx} {y + 15} {cx + 60} {y}\" stroke=\"#D32F2F\" stroke-width=\"8\" fill=\"none\"/>",
     s!"<path d=\"M{cx + 50} {y + 2} L{cx + 65} {y + 20} L{cx + 55} {y + 22}\" fill=\"#D32F2F\"/>"]
  else if acc = "headphones" then
    let y := cy - 20
    [s!"<path d=\"M{cx - 65} {y} Q{cx - 65} {cy - 85} {cx} {cy - 90} Q{cx + 65} {cy - 85} {cx + 65} {y}\" stroke=\"#333\" stroke-width=\"5\" fill=\"none\"/>",
     s!"<ellipse cx=\"{cx - 68}\" cy=\"{y + 5}\" rx=\"12\" ry=\"16\" fill=\"#444\"/>",
     s!"<ellipse cx=\"{cx + 68}\" cy=\"{y + 5}\" rx=\"12\" ry=\"16\" fill=\"#444\"/>"]
  else if acc = "scarf" then
    let y := cy + 70
    [s!"<path d=\"M{cx - 50} {y} Q{cx} {y + 15} {cx + 50} {y}\" stroke=\"#E74C3C\" stroke-width=\"12\" fill=\"none\" stroke-linecap=\"round\"/>",
     s!"<path d=\"M{cx + 40} {y + 5} L{cx + 35} {y + 35} L{cx + 50} {y + 30}\" fill=\"#C0392B\"/>"]
  else if acc = "earring" then
    [s!"<circle cx=\"{cx + 72}\" cy=\"{cy - 55}\" r=\"5\" fill=\"#FFD700\" stroke=\"#B8860B\" stroke-width=\"1\"/>",
     s!"<circle cx=\"{cx + 72}\" cy=\"{cy - 45}\" r=\"3\" fill=\"#FFD700\"/>"]
  else if acc = "laser_eyes" then
    let y := cy - 12
    [s!"<line x1=\"{cx - 30}\" y1=\"{y}\" x2=\"{cx - 120}\" y2=\"{y + 40}\" stroke=\"#FF0000\" stroke-width=\"3\" opacity=\"0.7\"/>",
     s!"<line x1=\"{cx + 30}\" y1=\"{y}\" x2=\"{cx + 120}\" y2=\"{y + 40}\" stroke=\"#FF0000\" stroke-width=\"3\" opacity=\"0.7\"/>",
     s!"<circle cx=\"{cx - 30}\" cy=\"{y}\" r=\"6\" fill=\"#FF0000\" opacity=\"0.5\"/>",
     s!"<circle cx=\"{cx + 30}\" cy=\"{y}\" r=\"6\" fill=\"#FF0000\" opacity=\"0.5\"/>"]
  else if acc = "halo" then
    let y := cy - 105
    [s!"<ellipse cx=\"{cx}\" cy=\"{y}\" rx=\"45\" ry=\"12\" fill=\"none\" stroke=\"#FFD700\" stroke-width=\"3\" opacity=\"0.8\"/>",
     s!"<ellipse cx=\"{cx}\" cy=\"{y}\" rx=\"45\" ry=\"12\" fill=\"#FFD700\" opacity=\"0.1\"/>"]
  else if acc = "horns" then
    ([-1, 1] : List Int).map fun side =>
      let hx := cx + side * 55
      s!"<path d=\"M{hx} {cy - 75} Q{hx + side * 25} {cy - 120} {hx + side * 15} {cy - 130}\" stroke=\"#4A2800\" stroke-width=\"8\" fill=\"none\" stroke-linecap=\"round\"/>"
  else if acc = "wizard_hat" then
    let y := cy - 90
    [s!"<polygon points=\"{cx},{y - 80} {cx - 45},{y + 10} {cx + 45},{y + 10}\" fill=\"#2C3E80\"/>",
     s!"<ellipse cx=\"{cx}\" cy=\"{y + 10}\" rx=\"55\" ry=\"10\" fill=\"#1A2550\"/>",
     star_shape (cx - 10) (y - 30) 5 2.5 "#FFD700",
     star_shape (cx + 15) (y - 50) 4 2 "#FFD700"]
  else if acc = "diamond_chain" then
    let y := cy + 65
    ((rangeN 7).map fun i =>
      let dx := cx - 42 + i * 14
      let s := (5 : Int)
      s!"<polygon points=\"{dx},{y - s} {dx + s},{y} {dx},{y + s} {dx - s},{y}\" fill=\"#87CEEB\" stroke=\"#4A90D9\" stroke-width=\"0.5\"/>") ++
    [s!"<line x1=\"{cx - 48}\" y1=\"{y}\" x2=\"{cx + 48}\" y2=\"{y}\" stroke=\"#B8B8B8\" stroke-width=\"1.5\"/>"]
  else if acc = "jetpack" then
    (([-1, 1] : List Int).map fun side =>
      let jx := cx + side * 85
      [s!"<rect x=\"{jx - 8}\" y=\"{cy - 20}\" width=\"16\" height=\"40\" rx=\"4\" fill=\"#666\"/>",
       s!"<rect x=\"{jx - 5}\" y=\"{cy + 20}\" width=\"10\" height=\"8\" rx=\"2\" fill=\"#FF4500\"/>",
       s!"<path d=\"M{jx - 4} {cy + 28} L{jx} {cy + 50} L{jx + 4} {cy + 28}\" fill=\"#FF6B00\" opacity=\"0.6\"/>"]).flatten
  else if acc = "wings" then
    ([-1, 1] : List Int).map fun side =>
      let wx := cx + side * 80
      s!"<path d=\"M{cx + side * 60} {cy - 10} Q{wx + side * 40} {cy - 60} {wx + side * 30} {cy - 80} Q{wx + side * 20} {cy - 40} {cx + side * 60} {cy + 20}\" fill=\"white\" stroke=\"#D0D0D0\" stroke-width=\"1\" opacity=\"0.7\"/>"
  else []

/-- `_accessory`: empty text for `"none"`, otherwise the joined branch
elements (an unrecognized accessory joins the empty list). -/
def accessory (acc : String) (cx cy : Int) : String :=
  if acc = "none" then "" else joinNL (accessoryElems acc cx cy)

/-- The glow colours of the legendary special effects. -/
def glowColor (sp : String) : String :=
  if sp = "transcendent" then "#FFFFFF"
  else if sp = "godlike" then "#FFD700"
  else "#9B59B6"

/-- The element list `p` of `_special` for a non-`"none"` effect (empty
when no branch matches). -/
def specialElems (sp : String) (w h seed : Int) : List String :=
  let cx := w / 2
  let cy := h / 2
  if sp = "sparkles" then
    (rangeN 10).map fun i =>
      let sx := (seed * (i + 1) * 19) % w
      let sy := (seed * (i + 1) * 23) % h
      let size := 4 + i % 5
      star_shape sx sy (Float.ofInt size) (Float.ofInt size * 0.4) "#FFD700"
  else if sp = "glow" then
    let fill := ((BODY_COLORS "golden").getD brownPalette).highlight
    [s!"<circle cx=\"{cx}\" cy=\"{cy}\" r=\"100\" fill=\"{fill}\" opacity=\"0.15\" filter=\"url(#glow)\"/>"]
  else if sp = "shadow" then
    [s!"<ellipse cx=\"{cx}\" cy=\"{cy + 100}\" rx=\"90\" ry=\"20\" fill=\"#000\" opacity=\"0.2\"/>"]
  else if sp = "aura" then
    (["#FF6B6B", "#FFD93D", "#6BCB77"].enum).map fun e =>
      let r := 130 + Int.ofNat e.1 * 15
      let c := e.2
      s!"<circle cx=\"{cx}\" cy=\"{cy}\" r=\"{r}\" fill=\"none\" stroke=\"{c}\" stroke-width=\"2\" opacity=\"0.2\"/>"
  else if sp = "particles" then
    (rangeN 15).map fun i =>
      let px := (seed * (i + 1) * 29) % w
      let py := (seed * (i + 1) * 31) % h
      s!"<circle cx=\"{px}\" cy=\"{py}\" r=\"{2 + i % 3}\" fill=\"#88CCFF\" opacity=\"0.4\"/>"
  else if sp = "energy" then
    (rangeN 6).map fun i =>
      let angle := i * 60
      let x2 := cx + pyInt (140 * Float.cos (radians (Float.ofInt angle)))
      let y2 := cy + pyInt (140 * Float.sin (radians (Float.ofInt angle)))
      let mx := cx + pyInt (80 * Float.cos (radians (Float.ofInt (angle + 15))))
      let my := cy + pyInt (80 * Float.sin (radians (Float.ofInt (angle + 15))))
      s!"<path d=\"M{cx} {cy} Q{mx} {my} {x2} {y2}\" stroke=\"#00FFFF\" stroke-width=\"1.5\" fill=\"none\" opacity=\"0.3\"/>"
  else if sp = "transcendent" ∨ sp = "godlike" ∨ sp = "mythical" then
    let gc := glowColor sp
    [s!"<circle cx=\"{cx}\" cy=\"{cy}\" r=\"140\" fill=\"{gc}\" opacity=\"0.06\"/>",
     s!"<circle cx=\"{cx}\" cy=\"{cy}\" r=\"120\" fill=\"{gc}\" opacity=\"0.08\"/>",
     s!"<circle cx=\"{cx}\" cy=\"{cy}\" r=\"100\" fill=\"{gc}\" opacity=\"0.06\"/>"] ++
    ((rangeN 12).map fun i =>
      let angle := i * 30
      let sx := cx + pyInt (135 * Float.cos (radians (Float.ofInt angle)))
      let sy := cy + pyInt (135 * Float.sin (radians (Float.ofInt angle)))
      star_shape sx sy 5 2 gc)
  else []

/-- `_special`: empty text for `"none"`, otherwise the joined branch
elements (an unrecognized effect joins the empty list). -/
def special (sp : String) (w h seed : Int) : String :=
  if sp = "none" then "" else joinNL (specialElems sp w h seed)

/-- `int(s, 16)` on a plain hex string (a digest prefix never carries the
sign, whitespace or `0x` forms Python's `int` would also accept);
`none` embeds the `ValueError` of a non-hex character or an empty slice. -/
def hexVal? (l : List Char) : Option Nat :=
  if l.isEmpty then none
  else l.foldl (fun acc c => do
    let a ← acc
    let d ← hexDigit? c
    pure (a * 16 + d)) (some 0)

/-- The derived render seed: `int(dna.dna_hash[:8], 16) if dna.dna_hash
else 12345`. -/
def seedOf (d : LionDNA) : Option Int :=
  if d.dna_hash = "" then some 12345
  else (hexVal? (d.dna_hash.toList.take 8)).map Int.ofNat

/-- The rendered trait value of a category: the trait's value, or the
documented default `"none"` for an absent trait
(`v.value if v else "none"`). -/
def tValue (d : LionDNA) (c : TraitCategory) : String :=
  ((d.traits c).map Trait.value).getD "none"

/-- The attribute text of the root `<svg …>` element. -/
def svgOpenAttrs (w h : Int) : String :=
  s!" width=\"{w}\" height=\"{h}\" viewBox=\"0 0 {w} {h}\" xmlns=\"http://www.w3.org/2000/svg\">"

/-- The root `<svg …>` element opening `generate_svg`'s parts list. -/
def svgOpen (w h : Int) : String :=
  "<svg" ++ svgOpenAttrs w h

/-- The `parts` list of `generate_svg`, given the already-derived seed. -/
def svgParts (d : LionDNA) (w h seed : Int) : List String :=
  let tBody := tValue d .BODY_COLOR
  let tExpr := tValue d .FACE_EXPRESSION
  let tAcc := tValue d .ACCESSORY
  let tPattern := tValue d .PATTERN
  let tBg := tValue d .BACKGROUND
  let tSpecial := tValue d .SPECIAL
  let cx := w / 2
  let cy := h / 2
  let colors := bodyColorsGet tBody
  [svgOpen w h,
   svg_defs tBody w h,
   background tBg w h seed,
   body colors tPattern cx cy seed,
   face tExpr cx cy,
   accessory tAcc cx cy,
   special tSpecial w h seed,
   "</svg>"]

/-- `generate_svg`: extract the trait values (defaulting absences), derive
the seed from the content hash, and join the fixed-order layer parts;
`none` embeds the `ValueError` of a malformed hash prefix. -/
def generate_svg (d : LionDNA) (w h : Int) : Option String :=
  (seedOf d).map fun seed => joinNL (svgParts d w h seed)

/-- `generate_thumbnail`: the fixed-aspect convenience wrapper. -/
def generate_thumbnail (d : LionDNA) (size : Int) : Option String :=
  generate_svg d size size

/-- The guard disjunction of `_background`'s scene chain: true exactly
when some scene branch matches. -/
def sceneBranch (bg : String) : Bool :=
  bg = "blue_sky" || bg = "sunset" || bg = "green_grass" || bg = "savanna" ||
  bg = "forest" || bg = "beach" || bg = "mountains" || bg = "city" || bg = "space" ||
  bg = "underwater" || bg = "volcano" || bg = "aurora" || bg = "heaven" ||
  bg = "black_hole" || bg = "multiverse" || bg = "dimension_rift"

/-- The key set of the `simple_fills` table. -/
def fillKey (bg : String) : Bool :=
  bg = "white" || bg = "blue_sky" || bg = "green_grass" || bg = "sunset" ||
  bg = "forest" || bg = "beach" || bg = "space" || bg = "underwater" ||
  bg = "volcano" || bg = "aurora" || bg = "multiverse" || bg = "black_hole" ||
  bg = "dimension_rift" || bg = "heaven" || bg = "mountains" || bg = "city"

/-- The guard disjunction of `_pattern`'s named branches (everything else
falls to the rosette arm). -/
def patternBranch (patv : String) : Bool :=
  patv = "spots" || patv = "stripes" || patv = "gradient" || patv = "swirls" ||
  patv = "stars" || patv = "hearts" || patv = "diamonds" || patv = "fractals" ||
  patv = "nebula" || patv = "lightning" || patv = "flames" || patv = "aurora" ||
  patv = "quantum" || patv = "cosmic_dust" || patv = "void"

/-- The guard disjunction of `_accessory`'s branches. -/
def accessoryBranch (acc : String) : Bool :=
  acc = "crown" || acc = "golden_crown" || acc = "sunglasses" || acc = "monocle" ||
  acc = "bow" || acc = "simple_hat" || acc = "bandana" || acc = "headphones" ||
  acc = "scarf" || acc = "earring" || acc = "laser_eyes" || acc = "halo" ||
  acc = "horns" || acc = "wizard_hat" || acc = "diamond_chain" || acc = "jetpack" ||
  acc = "wings"

/-- The guard disjunction of `_special`'s branches. -/
def specialBranch (sp : String) : Bool :=
  sp = "sparkles" || sp = "glow" || sp = "shadow" || sp = "aura" || sp = "particles" ||
  sp = "energy" || sp = "transcendent" || sp = "godlike" || sp = "mythical"

/-- A structurally valid content hash: absent, or with a hex-parsable
8-character prefix (as a digest's always is). -/
def hashOkB (d : LionDNA) : Bool :=
  d.dna_hash = "" || (hexVal? (d.dna_hash.toList.take 8)).isSome

end Visualizer

section Fixtures
/-!
Concrete records used by witnesses and counterexamples.
-/

/-- A total traits dict from a value table and a rarity table. -/
def traitsOf (vals : TraitCategory → String) (rar : TraitCategory → Rarity) :
    TraitCategory → Option Trait :=
  fun c => some ⟨c, vals c, rar c⟩

/-- A plain trait-value table: brown, happy, no accessory, solid,
blue-sky background, no special effect. -/
def valsA : TraitCategory → String
  | .BODY_COLOR => "brown"
  | .FACE_EXPRESSION => "happy"
  | .ACCESSORY => "none"
  | .PATTERN => "solid"
  | .BACKGROUND => "blue_sky"
  | .SPECIAL => "none"

/-- A record with the plain traits, all common, hash `"00000001"`. -/
def dnaBase : LionDNA :=
  ⟨1, none, traitsOf valsA (fun _ => .common), 2, "2024-01-01T00:00:00", "00000001"⟩

/-- The same trait values and hash as `dnaBase`, but every rarity rare
and different generation, parent, mutation count and timestamp. -/
def dnaRare : LionDNA :=
  ⟨5, some "parent-1", traitsOf valsA (fun _ => .rare), 9, "2024-02-02T00:00:00", "00000001"⟩

/-- The element's tag name: the letters right after the opening `<`. -/
def tagOf (s : String) : String :=
  String.mk ((s.toList.drop 1).takeWhile (fun c => c.isAlpha))

/-- Same trait values as `dnaBase`, content hash `"00000002"` (so a
different derived seed). -/
def dnaSeed2 : LionDNA :=
  ⟨1, none, traitsOf valsA (fun _ => .common), 2, "2024-01-01T00:00:00", "00000002"⟩

/-- Same trait values as `dnaBase`; content hash `"00000001aa"`. -/
def dnaPrefA : LionDNA :=
  ⟨1, none, traitsOf valsA (fun _ => .common), 2, "2024-01-01T00:00:00", "00000001aa"⟩

/-- Same trait values as `dnaPrefA`; the content hash differs from it
only beyond the 8-character prefix the seed is derived from. -/
def dnaPrefB : LionDNA :=
  ⟨1, none, traitsOf valsA (fun _ => .common), 2, "2024-01-01T00:00:00", "00000001bb"⟩

/-- A change-set with one unknown-category change and one valid change. -/
def decIsolation : Json :=
  Json.jobj [("changes", Json.jarr [
    Json.jobj [("category", Json.jstr "flavor"), ("new_value", Json.jstr "spicy"),
      ("new_rarity", Json.jstr "rare"), ("reason", Json.jstr "?")],
    Json.jobj [("category", Json.jstr "body_color"), ("new_value", Json.jstr "golden"),
      ("new_rarity", Json.jstr "uncommon"), ("reason", Json.jstr "warmer")]]),
    ("evolution_story", Json.jstr "s")]

/-- The record the applier produces from `dnaBase` and `decIsolation`. -/
def resIsolation : LionDNA := (apply_evolution dnaBase decIsolation).getD dnaBase

/-- A change-set with a single valid body_color change. -/
def decGolden : Json :=
  Json.jobj [("changes", Json.jarr [
    Json.jobj [("category", Json.jstr "body_color"), ("new_value", Json.jstr "golden"),
      ("new_rarity", Json.jstr "uncommon"), ("reason", Json.jstr "x")]])]

/-- The record the applier produces from `dnaBase` and `decGolden`. -/
def resGolden : LionDNA := (apply_evolution dnaBase decGolden).getD dnaBase

/-- A change-set whose one change carries an out-of-vocabulary value. -/
def decVerbatim : Json :=
  Json.jobj [("changes", Json.jarr [
    Json.jobj [("category", Json.jstr "pattern"), ("new_value", Json.jstr "neon_zebra"),
      ("new_rarity", Json.jstr "legendary")]])]

end Fixtures

section Lemmas

theorem joinSep_cons₂ (sep a b : String) (rest : List String) :
    joinSep sep (a :: b :: rest) = a ++ sep ++ joinSep sep (b :: rest) := rfl

theorem joinNL_head (a : String) (l : List String) : ∃ r, joinNL (a :: l) = a ++ r := by
  cases l with
  | nil => exact ⟨"", by simp [joinNL, joinSep]⟩
  | cons b rest =>
    exact ⟨"\n" ++ joinSep "\n" (b :: rest), by
      simp only [joinNL, joinSep_cons₂, String.append_assoc]⟩

theorem joinNL_last (l : List String) (a : String) : ∃ q, joinNL (l ++ [a]) = q ++ a := by
  induction l with
  | nil => exact ⟨"", by simp [joinNL, joinSep]⟩
  | cons x l ih =>
    obtain ⟨q, hq⟩ := ih
    cases l with
    | nil => exact ⟨x ++ "\n", by simp [joinNL, joinSep, String.append_assoc]⟩
    | cons z l2 =>
      refine ⟨x ++ "\n" ++ q, ?_⟩
      have h1 : joinNL ((x :: z :: l2) ++ [a]) = x ++ "\n" ++ joinNL ((z :: l2) ++ [a]) := rfl
      rw [h1, hq]
      simp [String.append_assoc]

theorem head_append_ne_empty (s r : String) (h : s = "<svg" ++ r) : s ≠ "" := by
  intro he
  have := congrArg String.length (he ▸ h)
  have h4 : ("<svg" : String).length = 4 := rfl
  have h0 : ("" : String).length = 0 := rfl
  rw [String.length_append, h4, h0] at this
  omega

theorem sceneElems_unrecognized (bg : String) (w h seed : Int)
    (hb : sceneBranch bg = false) : sceneElems bg w h seed = [] := by
  have no : ∀ x : String, sceneBranch x = true → bg ≠ x := by
    intro x hx e
    rw [e, hx] at hb
    cases hb
  unfold sceneElems
  rw [if_neg (no "blue_sky" (by decide)), if_neg (no "sunset" (by decide)),
    if_neg (fun e => Or.elim e (no "green_grass" (by decide)) (no "savanna" (by decide))),
    if_neg (no "forest" (by decide)), if_neg (no "beach" (by decide)),
    if_neg (no "mountains" (by decide)), if_neg (no "city" (by decide)),
    if_neg (no "space" (by decide)), if_neg (no "underwater" (by decide)),
    if_neg (no "volcano" (by decide)), if_neg (no "aurora" (by decide)),
    if_neg (no "heaven" (by decide)), if_neg (no "black_hole" (by decide)),
    if_neg (no "multiverse" (by decide)), if_neg (no "dimension_rift" (by decide))]

theorem simpleFill_unrecognized (bg : String) (hb : fillKey bg = false) :
    simpleFill bg = "#FFF5E6" := by
  have no : ∀ x : String, fillKey x = true → bg ≠ x := by
    intro x hx e
    rw [e, hx] at hb
    cases hb
  unfold simpleFill
  rw [if_neg (no "white" (by decide)), if_neg (no "blue_sky" (by decide)),
    if_neg (no "green_grass" (by decide)), if_neg (no "sunset" (by decide)),
    if_neg (no "forest" (by decide)), if_neg (no "beach" (by decide)),
    if_neg (no "space" (by decide)), if_neg (no "underwater" (by decide)),
    if_neg (no "volcano" (by decide)), if_neg (no "aurora" (by decide)),
    if_neg (no "multiverse" (by decide)), if_neg (no "black_hole" (by decide)),
    if_neg (no "dimension_rift" (by decide)), if_neg (no "heaven" (by decide)),
    if_neg (no "mountains" (by decide)), if_neg (no "city" (by decide))]

theorem patternBody_unrecognized (patv : String) (cx cy : Int) (dark : String) (seed : Int)
    (hb : patternBranch patv = false) :
    patternBody patv cx cy dark seed = rosetteElems cx cy dark seed := by
  have no : ∀ x : String, patternBranch x = true → patv ≠ x := by
    intro x hx e
    rw [e, hx] at hb
    cases hb
  unfold patternBody
  rw [if_neg (no "spots" (by decide)), if_neg (no "stripes" (by decide)),
    if_neg (no "gradient" (by decide)), if_neg (no "swirls" (by decide)),
    if_neg (no "stars" (by decide)), if_neg (no "hearts" (by decide)),
    if_neg (no "diamonds" (by decide)), if_neg (no "fractals" (by decide)),
    if_neg (no "nebula" (by decide)), if_neg (no "lightning" (by decide)),
    if_neg (no "flames" (by decide)),
    if_neg (fun e => Or.elim e (no "aurora" (by decide)) (fun e2 =>
      Or.elim e2 (no "quantum" (by decide)) (fun e3 =>
        Or.elim e3 (no "cosmic_dust" (by decide)) (no "void" (by decide)))))]

theorem accessoryElems_unrecognized (acc : String) (cx cy : Int)
    (hb : accessoryBranch acc = false) : accessoryElems acc cx cy = [] := by
  have no : ∀ x : String, accessoryBranch x = true → acc ≠ x := by
    intro x hx e
    rw [e, hx] at hb
    cases hb
  unfold accessoryElems
  rw [if_neg (fun e => Or.elim e (no "crown" (by decide)) (no "golden_crown" (by decide))),
    if_neg (no "sunglasses" (by decide)), if_neg (no "monocle" (by decide)),
    if_neg (no "bow" (by decide)), if_neg (no "simple_hat" (by decide)),
    if_neg (no "bandana" (by decide)), if_neg (no "headphones" (by decide)),
    if_neg (no "scarf" (by decide)), if_neg (no "earring" (by decide)),
    if_neg (no "laser_eyes" (by decide)), if_neg (no "halo" (by decide)),
    if_neg (no "horns" (by decide)), if_neg (no "wizard_hat" (by decide)),
    if_neg (no "diamond_chain" (by decide)), if_neg (no "jetpack" (by decide)),
    if_neg (no "wings" (by decide))]

theorem specialElems_unrecognized (sp : String) (w h seed : Int)
    (hb : specialBranch sp = false) : specialElems sp w h seed = [] := by
  have no : ∀ x : String, specialBranch x = true → sp ≠ x := by
    intro x hx e
    rw [e, hx] at hb
    cases hb
  unfold specialElems
  rw [if_neg (no "sparkles" (by decide)), if_neg (no "glow" (by decide)),
    if_neg (no "shadow" (by decide)), if_neg (no "aura" (by decide)),
    if_neg (no "particles" (by decide)), if_neg (no "energy" (by decide)),
    if_neg (fun e => Or.elim e (no "transcendent" (by decide)) (fun e2 =>
      Or.elim e2 (no "godlike" (by decide)) (no "mythical" (by decide))))]

theorem seedOf_isSome (d : LionDNA) (hh : hashOkB d = true) : ∃ n, seedOf d = some n := by
  unfold hashOkB at hh
  unfold seedOf
  by_cases he : d.dna_hash = ""
  · exact ⟨12345, by rw [if_pos he]⟩
  · rw [if_neg he]
    rw [Bool.or_eq_true] at hh
    rcases hh with hh | hh
    · exact absurd (by simpa using hh) he
    · obtain ⟨n, hn⟩ := Option.isSome_iff_exists.mp hh
      exact ⟨Int.ofNat n, by rw [hn]; rfl⟩

/-- Document structure: with a structurally valid hash the render
succeeds and the text opens with the root `<svg` element and closes with
`</svg>`. -/
theorem generate_svg_structure (d : LionDNA) (w h : Int) (hh : hashOkB d = true) :
    ∃ s, generate_svg d w h = some s ∧ s ≠ "" ∧
      (∃ r, s = "<svg" ++ r) ∧ (∃ q, s = q ++ "</svg>") := by
  obtain ⟨seed, hseed⟩ := seedOf_isSome d hh
  refine ⟨joinNL (svgParts d w h seed), ?_, ?_, ?_, ?_⟩
  · unfold generate_svg
    rw [hseed]
    rfl
  · obtain ⟨r0, hr0⟩ := joinNL_head (svgOpen w h) ((svgParts d w h seed).tail)
    have hcons : svgParts d w h seed = svgOpen w h :: (svgParts d w h seed).tail := rfl
    exact head_append_ne_empty _ (svgOpenAttrs w h ++ r0)
      (by rw [hcons, hr0]; exact String.append_assoc "<svg" (svgOpenAttrs w h) r0)
  · obtain ⟨r0, hr0⟩ := joinNL_head (svgOpen w h) ((svgParts d w h seed).tail)
    have hcons : svgParts d w h seed = svgOpen w h :: (svgParts d w h seed).tail := rfl
    exact ⟨svgOpenAttrs w h ++ r0,
      by rw [hcons, hr0]; exact String.append_assoc "<svg" (svgOpenAttrs w h) r0⟩
  · obtain ⟨q, hq⟩ := joinNL_last ((svgParts d w h seed).dropLast) "</svg>"
    have hsnoc : svgParts d w h seed = (svgParts d w h seed).dropLast ++ ["</svg>"] := rfl
    exact ⟨q, by rw [hsnoc]; exact hq⟩

/-- The applier's fold equals the fold of only the resolving changes:
a change that fails to resolve is dropped without influencing the rest,
and each resolving change counts once. -/
theorem foldl_apply_step (l : List Json) (tr : TraitCategory → Option Trait) (n : Nat) :
    l.foldl apply_step (tr, n) =
      ((l.filterMap resolve_change).foldl
        (fun t2 t => update_traits t2 t.1 ⟨t.1, t.2.1, t.2.2⟩) tr,
       n + (l.filterMap resolve_change).length) := by
  induction l generalizing tr n with
  | nil => simp
  | cons c l ih =>
    cases h : resolve_change c with
    | none =>
      simp only [List.foldl_cons, List.filterMap_cons, h, apply_step]
      exact ih tr n
    | some t =>
      obtain ⟨cat, v, r⟩ := t
      simp only [List.foldl_cons, List.filterMap_cons, h, apply_step]
      rw [ih]
      simp only [List.foldl_cons, List.length_cons, Prod.mk.injEq]
      exact ⟨by trivial, by omega⟩

/-- A fold of updates never touches a category none of the updates name. -/
theorem foldl_update_untouched (l : List (TraitCategory × String × Rarity))
    (tr : TraitCategory → Option Trait) (c : TraitCategory) (h : ∀ t ∈ l, t.1 ≠ c) :
    (l.foldl (fun t2 t => update_traits t2 t.1 ⟨t.1, t.2.1, t.2.2⟩) tr) c = tr c := by
  induction l generalizing tr with
  | nil => rfl
  | cons t l ih =>
    simp only [List.foldl_cons]
    rw [ih _ (fun x hx => h x (by simp [hx]))]
    unfold update_traits
    rw [if_neg (fun e => h t (by simp) e.symm)]

/-- Unpacking of a successful `_apply_evolution`: the copied fields, the
mutation-count equation, and the trait table as the fold of exactly the
resolving changes over the copied traits. -/
theorem apply_evolution_spec (dna : LionDNA) (decision : Json) (res : LionDNA)
    (h : apply_evolution dna decision = some res) :
    res.generation = dna.generation ∧ res.parent_id = dna.parent_id ∧
    res.birth_timestamp = dna.birth_timestamp ∧
    res.mutation_count = dna.mutation_count + (applied_changes decision).length ∧
    res.traits = (applied_changes decision).foldl
      (fun t2 t => update_traits t2 t.1 ⟨t.1, t.2.1, t.2.2⟩) dna.traits := by
  cases decision with
  | jobj kvs =>
    simp only [apply_evolution] at h
    cases hc : changes_of kvs with
    | none => rw [hc] at h; cases h
    | some changes =>
      rw [hc] at h
      simp only [Option.some.injEq] at h
      subst h
      simp only [applied_changes, hc, Option.getD_some]
      rw [foldl_apply_step]
      exact ⟨by trivial, by trivial, by trivial, by simp, by trivial⟩
  | jnull => cases h
  | jbool b => cases h
  | jnum m e => cases h
  | jnan => cases h
  | jinf n => cases h
  | jstr s => cases h
  | jarr l => cases h

/-- The parts list only reads the record through its six rendered trait
values. -/
theorem svgParts_congr (d₁ d₂ : LionDNA) (w h seed : Int)
    (ht : ∀ c : TraitCategory, tValue d₁ c = tValue d₂ c) :
    svgParts d₁ w h seed = svgParts d₂ w h seed := by
  unfold svgParts
  rw [ht .BODY_COLOR, ht .FACE_EXPRESSION, ht .ACCESSORY, ht .PATTERN, ht .BACKGROUND,
    ht .SPECIAL]

/-- `generate_svg` only reads the record through its six rendered trait
values and the derived seed. -/
theorem generate_svg_congr (d₁ d₂ : LionDNA) (w h : Int)
    (ht : ∀ c : TraitCategory, tValue d₁ c = tValue d₂ c)
    (hs : seedOf d₁ = seedOf d₂) :
    generate_svg d₁ w h = generate_svg d₂ w h := by
  unfold generate_svg
  rw [hs]
  exact congrArg (fun f => Option.map f (seedOf d₂))
    (funext fun seed => congrArg joinNL (svgParts_congr d₁ d₂ w h seed ht))

end Lemmas

section Claims

/-- Claim C1: render is deterministic — the SVG text is a pure function
of the six trait values, the content hash (through the derived seed) and
the dimensions: two records agreeing on those render byte-identically, so
repeated calls (and records differing only in rarities, generation,
parent, timestamps or mutation counts) cannot differ. -/
theorem render_deterministic (d₁ d₂ : LionDNA) (w h : Int)
    (hvals : ∀ c : TraitCategory, (d₁.traits c).map Trait.value = (d₂.traits c).map Trait.value)
    (hhash : d₁.dna_hash = d₂.dna_hash) :
    generate_svg d₁ w h = generate_svg d₂ w h := by
  apply generate_svg_congr
  · intro c
    unfold tValue
    rw [hvals c]
  · unfold seedOf
    rw [hhash]

/-- Claim C4: the parser's full contract. For every input it either
returns the JSON-decoded first-brace-to-last-brace payload of the
fence-stripped text, or (on any failure: no opening brace, empty or
malformed payload, decode error) the default empty change-set — it is a
total function, so no error propagates. On the spec's §8 success input it
extracts exactly one change (body_color, golden, uncommon), and on
`"not json at all"` it returns the default change-set. -/
theorem parser_contract :
    (∀ s : String,
      match extract_payload s with
      | some payload =>
        match json_loads payload with
        | some j => parse_ai_response s = j
        | none => parse_ai_response s = defaultDecision
      | none => parse_ai_response s = defaultDecision) ∧
    parse_ai_response "noise \x7b\"changes\":[\x7b\"category\":\"body_color\",\"new_value\":\"golden\",\"new_rarity\":\"uncommon\",\"reason\":\"x\"\x7d],\"evolution_story\":\"s\"\x7d trailing" =
      Json.jobj [("changes", Json.jarr [Json.jobj
        [("category", Json.jstr "body_color"), ("new_value", Json.jstr "golden"),
         ("new_rarity", Json.jstr "uncommon"), ("reason", Json.jstr "x")]]),
        ("evolution_story", Json.jstr "s")] ∧
    parse_ai_response "not json at all" = defaultDecision := by
  refine ⟨fun s => ?_, by rfl, by rfl⟩
  unfold parse_ai_response
  cases hE : extract_payload s with
  | none => simp
  | some payload =>
    cases hL : json_loads payload with
    | none => simp [hL]
    | some j => simp [hL]

/-- Claim C2: render never fails for structurally valid input. For every
record (its six categories populated, its content hash a digest — absent
or hex) the total function `generate_svg` returns a document that is
non-empty, opens with the root `<svg` element and closes with `</svg>`;
and every unrecognized category value routes to its default: an unknown
body colour takes the brown palette, an unknown background keeps only the
plain-fill backdrop rectangle, an unknown pattern falls to the rosette
branch, and an unknown accessory or special effect contributes empty
text. The dimension bounds keep the statement faithful to the source: its
placement moduli divide by `w - 120`, `h - 100`, `h / 2` and the like, so
a degenerate canvas would divide by zero in Python, while above 120 the
embedded integer arithmetic agrees with Python's exactly. -/
theorem render_never_fails :
    (∀ (d : LionDNA) (w h : Int), populatedB d = true → hashOkB d = true →
      120 < w → 120 < h →
      ∃ s, generate_svg d w h = some s ∧ s ≠ "" ∧
        (∃ r, s = "<svg" ++ r) ∧ (∃ q, s = q ++ "</svg>")) ∧
    (∀ cn : String, BODY_COLORS cn = none → bodyColorsGet cn = brownPalette) ∧
    (∀ (bg : String) (w h seed : Int), fillKey bg = false → sceneBranch bg = false →
      simpleFill bg = "#FFF5E6" ∧
      backgroundElems bg w h seed = [backgroundRect bg w h]) ∧
    (∀ (patv : String) (cx cy : Int) (c : Palette) (seed : Int),
      patternBranch patv = false → ¬(patv = "solid" ∨ patv = "none") →
      pattern patv cx cy c seed =
        joinNL ("<g clip-path=\"url(#body-clip)\" opacity=\"0.3\">" ::
          (rosetteElems cx cy c.shadow seed ++ ["</g>"]))) ∧
    (∀ (acc : String) (cx cy : Int), accessoryBranch acc = false →
      accessory acc cx cy = "") ∧
    (∀ (sp : String) (w h seed : Int), specialBranch sp = false →
      special sp w h seed = "") := by
  refine ⟨?_, ?_, ?_, ?_, ?_, ?_⟩
  · intro d w h _ hh _ _
    exact generate_svg_structure d w h hh
  · intro cn hcn
    unfold bodyColorsGet
    rw [hcn]
    rfl
  · intro bg w h seed hf hs
    refine ⟨simpleFill_unrecognized bg hf, ?_⟩
    unfold backgroundElems
    rw [sceneElems_unrecognized bg w h seed hs]
  · intro patv cx cy c seed hb hsn
    unfold pattern
    rw [if_neg hsn, patternBody_unrecognized patv cx cy c.shadow seed hb]
  · intro acc cx cy hb
    unfold accessory
    by_cases hn : acc = "none"
    · rw [if_pos hn]
    · rw [if_neg hn, accessoryElems_unrecognized acc cx cy hb]
      rfl
  · intro sp w h seed hb
    unfold special
    by_cases hn : sp = "none"
    · rw [if_pos hn]
    · rw [if_neg hn, specialElems_unrecognized sp w h seed hb]
      rfl

/-- Claim C3: evolve always recovers. When the provider raises on every
call — and likewise when the application step raises (the parser itself
never can) — `evolve_with_ai` returns exactly the pure-random fallback
`GeneticsEngine.evolve(dna, evolution_strength=0.1)` and, being a total
function, propagates no exception; and whenever the genetics collaborator
guarantees structurally valid results with non-decreasing mutation count,
the failing-provider result inherits both properties. -/
theorem evolve_fallback_recovers :
    (∀ (gen : String → Nat → Option String) (ge : LionDNA → ℚ → LionDNA) (dna : LionDNA)
       (days : Int), (∀ p n, gen p n = none) →
       evolve_with_ai gen ge dna days = ge dna (1 / 10)) ∧
    (∀ (gen : String → Nat → Option String) (ge : LionDNA → ℚ → LionDNA) (dna : LionDNA)
       (days : Int) (resp : String),
       gen (create_evolution_prompt (current_traits_of dna) days dna.generation) 1024 =
         some resp →
       apply_evolution dna (parse_ai_response resp) = none →
       evolve_with_ai gen ge dna days = ge dna (1 / 10)) ∧
    (∀ (gen : String → Nat → Option String) (ge : LionDNA → ℚ → LionDNA) (dna : LionDNA)
       (days : Int), (∀ p n, gen p n = none) →
       (∀ (d : LionDNA) (q : ℚ), populatedB (ge d q) = true ∧
          d.mutation_count ≤ (ge d q).mutation_count) →
       populatedB (evolve_with_ai gen ge dna days) = true ∧
       dna.mutation_count ≤ (evolve_with_ai gen ge dna days).mutation_count) := by
  have h1 : ∀ (gen : String → Nat → Option String) (ge : LionDNA → ℚ → LionDNA)
      (dna : LionDNA) (days : Int), (∀ p n, gen p n = none) →
      evolve_with_ai gen ge dna days = ge dna (1 / 10) := by
    intro gen ge dna days hgen
    simp only [evolve_with_ai, hgen]
  refine ⟨h1, ?_, ?_⟩
  · intro gen ge dna days resp hresp happly
    simp only [evolve_with_ai, hresp, happly]
  · intro gen ge dna days hgen hval
    rw [h1 gen ge dna days hgen]
    exact hval dna (1 / 10)

/-- Claim C1 witness: two records with the same trait values and content
hash but different rarities, generation, parent, mutation count and birth
timestamp render identically. -/
theorem render_deterministic_witness :
    generate_svg dnaBase 400 400 = generate_svg dnaRare 400 400 :=
  render_deterministic dnaBase dnaRare 400 400 (fun c => by cases c <;> rfl) rfl

/-- Claim C7: the render seed is the base-16 value of the first 8 hex
characters of the content hash (the parse succeeds on any nonempty hex
prefix), the constant 12345 when the record has no content hash, equal
hashes give equal seeds, and `generate_svg` renders from exactly this
seed. -/
theorem seed_derivation :
    (∀ d : LionDNA, d.dna_hash = "" → seedOf d = some 12345) ∧
    (∀ d : LionDNA, d.dna_hash ≠ "" →
      seedOf d = (hexVal? (d.dna_hash.toList.take 8)).map Int.ofNat) ∧
    (∀ l : List Char, l ≠ [] → (∀ c ∈ l, (hexDigit? c).isSome) → (hexVal? l).isSome) ∧
    (∀ d₁ d₂ : LionDNA, d₁.dna_hash = d₂.dna_hash → seedOf d₁ = seedOf d₂) ∧
    (∀ (d : LionDNA) (w h : Int),
      generate_svg d w h = (seedOf d).map fun seed => joinNL (svgParts d w h seed)) := by
  refine ⟨?_, ?_, ?_, ?_, ?_⟩
  · intro d hd
    unfold seedOf
    rw [if_pos hd]
  · intro d hd
    unfold seedOf
    rw [if_neg hd]
  · intro l hne hhex
    have aux : ∀ (m : List Char) (a : Nat), (∀ c ∈ m, (hexDigit? c).isSome) →
        (m.foldl (fun acc c => do
          let a ← acc
          let d ← hexDigit? c
          pure (a * 16 + d)) (some a)).isSome := by
      intro m
      induction m with
      | nil => intro a _; rfl
      | cons c m ih =>
        intro a hm
        obtain ⟨d, hd⟩ := Option.isSome_iff_exists.mp (hm c (by simp))
        simp only [List.foldl_cons, Option.bind_eq_bind, Option.some_bind, hd,
          Option.map_some]
        exact ih (a * 16 + d) (fun x hx => hm x (by simp [hx]))
    unfold hexVal?
    rw [if_neg (by simpa using hne)]
    exact aux l 0 hhex
  · intro d₁ d₂ hh
    unfold seedOf
    rw [hh]
  · intro d w h
    rfl

/-- Claim C5: applier isolation and counting. Each change is processed
independently: the result's traits are the fold of exactly the resolving
changes (an unresolvable change is dropped without influencing the rest,
a resolving one replaces that category's Trait with the verbatim value
and resolved rarity), and the mutation count rises by exactly the number
of applied changes. Concretely: one unknown-category change plus one
valid change update only body_color and raise the count by 1, and an
out-of-vocabulary value is stored verbatim. -/
theorem applier_isolation_and_count :
    (∀ (dna : LionDNA) (decision : Json) (res : LionDNA),
      apply_evolution dna decision = some res →
      res.mutation_count = dna.mutation_count + (applied_changes decision).length ∧
      ∀ c : TraitCategory,
        res.traits c = ((applied_changes decision).foldl
          (fun t2 t => update_traits t2 t.1 ⟨t.1, t.2.1, t.2.2⟩) dna.traits) c) ∧
    apply_evolution dnaBase decIsolation = some resIsolation ∧
    (applied_changes decIsolation).length = 1 ∧
    resIsolation.mutation_count = dnaBase.mutation_count + 1 ∧
    resIsolation.traits .BODY_COLOR = some ⟨.BODY_COLOR, "golden", .uncommon⟩ ∧
    (∀ c : TraitCategory, c ≠ .BODY_COLOR → resIsolation.traits c = dnaBase.traits c) ∧
    (apply_evolution dnaBase decVerbatim).map (fun r => r.traits .PATTERN) =
      some (some ⟨.PATTERN, "neon_zebra", .legendary⟩) := by
  refine ⟨?_, rfl, by decide, by decide, by decide, ?_, by decide⟩
  · intro dna decision res h
    obtain ⟨-, -, -, hm, ht⟩ := apply_evolution_spec dna decision res h
    exact ⟨hm, fun c => by rw [ht]⟩
  · intro c hc
    cases c
    · exact absurd rfl hc
    all_goals decide

/-- Claim C6: applier frame condition. A successful application copies
generation, parent and birth timestamp, and leaves every category no
applied change names untouched (the input record itself is a read-only
argument of the pure embedding, as the source's `model_copy` ensures);
concretely a single valid body_color change leaves the generation
unchanged. -/
theorem applier_frame :
    (∀ (dna : LionDNA) (decision : Json) (res : LionDNA),
      apply_evolution dna decision = some res →
      res.generation = dna.generation ∧ res.parent_id = dna.parent_id ∧
      res.birth_timestamp = dna.birth_timestamp ∧
      ∀ c : TraitCategory, (∀ t ∈ applied_changes decision, t.1 ≠ c) →
        res.traits c = dna.traits c) ∧
    apply_evolution dnaBase decGolden = some resGolden ∧
    resGolden.generation = dnaBase.generation ∧
    resGolden.parent_id = dnaBase.parent_id ∧
    resGolden.birth_timestamp = dnaBase.birth_timestamp ∧
    resGolden.traits .BODY_COLOR = some ⟨.BODY_COLOR, "golden", .uncommon⟩ := by
  refine ⟨?_, rfl, by decide, by decide, by decide, by decide⟩
  intro dna decision res h
  obtain ⟨hg, hp, hb, -, ht⟩ := apply_evolution_spec dna decision res h
  refine ⟨hg, hp, hb, fun c hc => ?_⟩
  rw [ht]
  exact foldl_update_untouched _ _ _ hc

/-- No-change diff: when every category is present in both records and the
values agree pointwise, the collected change list is empty. -/
theorem story_changes_of_eq_values (old_dna new_dna : LionDNA) :
    ∀ cats : List TraitCategory,
      (∀ c ∈ cats, (old_dna.traits c).isSome) →
      (∀ c ∈ cats, (new_dna.traits c).isSome) →
      (∀ c ∈ cats, (old_dna.traits c).map Trait.value = (new_dna.traits c).map Trait.value) →
      story_changes old_dna new_dna cats = some [] := by
  intro cats
  induction cats with
  | nil => intro _ _ _; rfl
  | cons c rest ih =>
    intro h1 h2 h3
    obtain ⟨ot, hot⟩ := Option.isSome_iff_exists.mp (h1 c (by simp))
    obtain ⟨nt, hnt⟩ := Option.isSome_iff_exists.mp (h2 c (by simp))
    have hv := h3 c (by simp)
    rw [hot, hnt] at hv
    simp at hv
    have ihr := ih (fun x hx => h1 x (by simp [hx])) (fun x hx => h2 x (by simp [hx]))
      (fun x hx => h3 x (by simp [hx]))
    unfold story_changes
    rw [hot, hnt, ihr]
    simp [hv]

/-- Claim C8: narrating a record against itself returns the fixed
"no changes" sentence, and the result does not depend on the provider —
no provider call can influence it, because the diff of every category is
empty and the provider branch is never taken. -/
theorem narrate_noop (g₁ g₂ : String → Nat → Option String) (d : LionDNA)
    (hp : populatedB d = true) :
    generate_evolution_story g₁ d d = some "Your lion rested today. No visible changes." ∧
    generate_evolution_story g₁ d d = generate_evolution_story g₂ d d := by
  have hsome : ∀ c ∈ allCategories, (d.traits c).isSome := by
    intro c hc
    exact List.all_eq_true.mp hp c hc
  have h := story_changes_of_eq_values d d allCategories hsome hsome (fun _ _ => rfl)
  unfold generate_evolution_story
  rw [h]
  exact ⟨rfl, rfl⟩

/-- Claim C8 witness: a concrete populated record narrated against itself
gives the fixed sentence under a succeeding provider, and the same text
under a failing provider. -/
theorem narrate_noop_witness :
    generate_evolution_story (fun _ _ => some "tale") dnaBase dnaBase =
      some "Your lion rested today. No visible changes." ∧
    generate_evolution_story (fun _ _ => some "tale") dnaBase dnaBase =
      generate_evolution_story (fun _ _ => none) dnaBase dnaBase :=
  narrate_noop (fun _ _ => some "tale") (fun _ _ => none) dnaBase rfl

/-- Claim C10 (implicit): the narration diff compares only trait values,
never rarities — records with pairwise equal values but arbitrary
rarities narrate as the fixed "no changes" sentence, independent of the
provider. -/
theorem narrate_ignores_rarity (g₁ g₂ : String → Nat → Option String)
    (old_dna new_dna : LionDNA) (hpo : populatedB old_dna = true)
    (hpn : populatedB new_dna = true)
    (hv : ∀ c : TraitCategory,
      (old_dna.traits c).map Trait.value = (new_dna.traits c).map Trait.value) :
    generate_evolution_story g₁ old_dna new_dna =
      some "Your lion rested today. No visible changes." ∧
    generate_evolution_story g₁ old_dna new_dna =
      generate_evolution_story g₂ old_dna new_dna := by
  have ho : ∀ c ∈ allCategories, (old_dna.traits c).isSome := by
    intro c hc
    exact List.all_eq_true.mp hpo c hc
  have hn : ∀ c ∈ allCategories, (new_dna.traits c).isSome := by
    intro c hc
    exact List.all_eq_true.mp hpn c hc
  have h := story_changes_of_eq_values old_dna new_dna allCategories ho hn (fun c _ => hv c)
  unfold generate_evolution_story
  rw [h]
  exact ⟨rfl, rfl⟩

/-- Claim C10 witness: a rarity-only evolution (every value kept, every
rarity changed from common to rare) is narrated as no change, with and
without a working provider. -/
theorem narrate_ignores_rarity_witness :
    generate_evolution_story (fun _ _ => some "tale") dnaBase dnaRare =
      some "Your lion rested today. No visible changes." ∧
    generate_evolution_story (fun _ _ => some "tale") dnaBase dnaRare =
      generate_evolution_story (fun _ _ => none) dnaBase dnaRare :=
  narrate_ignores_rarity (fun _ _ => some "tale") (fun _ _ => none) dnaBase dnaRare
    rfl rfl (fun c => by cases c <;> rfl)

/-- Claim C9 counterexample: two records with identical trait values that
differ only in content hash — the hashes disagree beyond the 8-character
prefix — render byte-identically, so they do not produce different
procedural placements. -/
theorem seed_sensitivity_cex :
    dnaPrefA.dna_hash ≠ dnaPrefB.dna_hash ∧
    (∀ c : TraitCategory,
      (dnaPrefA.traits c).map Trait.value = (dnaPrefB.traits c).map Trait.value) ∧
    dnaPrefA.generation = dnaPrefB.generation ∧
    dnaPrefA.parent_id = dnaPrefB.parent_id ∧
    dnaPrefA.mutation_count = dnaPrefB.mutation_count ∧
    dnaPrefA.birth_timestamp = dnaPrefB.birth_timestamp ∧
    generate_svg dnaPrefA 400 400 = generate_svg dnaPrefB 400 400 := by
  refine ⟨by decide, fun c => by cases c <;> rfl, rfl, rfl, rfl, rfl, ?_⟩
  exact generate_svg_congr dnaPrefA dnaPrefB 400 400 (fun c => by cases c <;> rfl) (by decide)

/-- Claim C9 (amended): the render depends on the content hash only
through the seed derived from its first 8 hex characters — equal seeds
(for instance hashes sharing that prefix) render byte-identically — and a
changed seed can change the procedural placements while preserving the
layer and element structure, witnessed concretely: with seeds 1 and 2 the
blue-sky cloud ellipses and the mane petals move (the element lists
differ) while the per-element tag sequences, the part count, and every
seed-independent layer stay identical. -/
theorem seed_sensitivity_amended :
    (∀ (d₁ d₂ : LionDNA) (w h : Int),
      (∀ c : TraitCategory, (d₁.traits c).map Trait.value = (d₂.traits c).map Trait.value) →
      seedOf d₁ = seedOf d₂ →
      generate_svg d₁ w h = generate_svg d₂ w h) ∧
    seedOf dnaBase = some 1 ∧ seedOf dnaSeed2 = some 2 ∧
    generate_svg dnaBase 400 400 = some (joinNL (svgParts dnaBase 400 400 1)) ∧
    generate_svg dnaSeed2 400 400 = some (joinNL (svgParts dnaSeed2 400 400 2)) ∧
    (svgParts dnaBase 400 400 1).length = (svgParts dnaSeed2 400 400 2).length ∧
    backgroundElems "blue_sky" 400 400 1 ≠ backgroundElems "blue_sky" 400 400 2 ∧
    (backgroundElems "blue_sky" 400 400 1).map tagOf =
      (backgroundElems "blue_sky" 400 400 2).map tagOf ∧
    bodyElems brownPalette "solid" 200 200 1 ≠ bodyElems brownPalette "solid" 200 200 2 ∧
    (bodyElems brownPalette "solid" 200 200 1).map tagOf =
      (bodyElems brownPalette "solid" 200 200 2).map tagOf ∧
    svg_defs (tValue dnaBase .BODY_COLOR) 400 400 =
      svg_defs (tValue dnaSeed2 .BODY_COLOR) 400 400 ∧
    face (tValue dnaBase .FACE_EXPRESSION) 200 200 =
      face (tValue dnaSeed2 .FACE_EXPRESSION) 200 200 ∧
    accessory (tValue dnaBase .ACCESSORY) 200 200 =
      accessory (tValue dnaSeed2 .ACCESSORY) 200 200 ∧
    special (tValue dnaBase .SPECIAL) 400 400 1 =
      special (tValue dnaSeed2 .SPECIAL) 400 400 2 := by
  refine ⟨?_, by decide, by decide, rfl, rfl, rfl, by decide, by decide, by decide, by decide,
    ?_, ?_, ?_, ?_⟩
  · intro d₁ d₂ w h hvals hs
    apply generate_svg_congr d₁ d₂ w h _ hs
    intro c
    unfold tValue
    rw [hvals c]
  · exact congrArg (fun v => svg_defs v 400 400)
      (rfl : tValue dnaBase .BODY_COLOR = tValue dnaSeed2 .BODY_COLOR)
  · exact congrArg (fun v => face v 200 200)
      (rfl : tValue dnaBase .FACE_EXPRESSION = tValue dnaSeed2 .FACE_EXPRESSION)
  · exact congrArg (fun v => accessory v 200 200)
      (rfl : tValue dnaBase .ACCESSORY = tValue dnaSeed2 .ACCESSORY)
  · have hv : tValue dnaBase .SPECIAL = tValue dnaSeed2 .SPECIAL := rfl
    rw [hv]
    have h1 : special (tValue dnaSeed2 .SPECIAL) 400 400 1 = "" := rfl
    have h2 : special (tValue dnaSeed2 .SPECIAL) 400 400 2 = "" := rfl
    rw [h1, h2]

end Claims

end ForkLion
